import Mathlib

/-!
Verification development for the FitnessHack backend (Go / Fiber / Redis /
Postgres).  The definitions below are a shallow embedding of the cache
consistency core: the entity records generated from the database schema,
the Redis-backed cache layer of internal/server/server.go, the record-store
operations of internal/database/database.go, and the per-resource HTTP
handlers of internal/server/{users,workouts,exercises,workout_sessions}.go,
the workout-exercises handler file and the programs handler file.

Modelling conventions:
* time.Time values are abstract ticks (Nat); handlers that call time.Now()
  take the tick as an explicit parameter.
* Go interface-typed model fields (the generated models use interface
  fields for several columns, read back through type assertions such as
  user.Email.(string)) are modelled by the small dynamic type GoDyn.
* Database-generated ids (gen_random_uuid / uuid.New) are explicit
  parameters of the operations that consume them.
* bcrypt hashing is outside the core; createUser takes the produced hash
  as a parameter.
* decimal.Decimal / float64 amounts are modelled as exact rationals.
* The cache is an association list of key/payload pairs plus an
  availability flag: up = false models a cache backend that is
  unreachable (connection refused / timeout), in which case every cache
  command returns an error; the Go handlers ignore those errors.
  Payloads are the structured values the handlers marshal to JSON; a
  lookup that yields a payload of the wrong shape corresponds to a
  json.Unmarshal failure and is treated as a miss, exactly as in the
  handlers.
* The record store is a list of rows per table plus an availability
  flag; up = false models a connection/timeout failure, surfaced to the
  handlers as an error they cannot distinguish from a missing row.
-/

namespace FitnessHack

/-- Go interface values stored in the generated model fields: nil, a plain
string, or a pointer to a string (the update handlers sometimes store the
request pointer itself rather than its dereference). A type assertion
.(string) succeeds only on the plain-string case. -/
inductive GoDyn where
  | nil
  | str (v : String)
  | strPtr (v : String)
  deriving DecidableEq, Repr

/-- The value produced by the Go pattern: if x != nil, if s, ok := x.(string). -/
def GoDyn.asString : GoDyn → String
  | .str v => v
  | _ => ""

/-- The value produced by the Go pattern returning an optional string from a
type assertion (used by convertProgramToResponse for Difficulty). -/
def GoDyn.asStringOpt : GoDyn → Option String
  | .str v => some v
  | _ => none

/-- users table row (generated model; columns from migration
001_create_users_table and the users CRUD in database.go). -/
structure Users where
  id : String
  email : GoDyn
  username : GoDyn
  password_hash : GoDyn
  first_name : GoDyn
  last_name : GoDyn
  created_at : Nat
  updated_at : Nat
  deriving DecidableEq, Repr

/-- workouts table row (migration 002 plus the program_id column added by
migration 006; columns as in the workouts CRUD of database.go). -/
structure Workouts where
  id : String
  user_id : String
  name : String
  description : String
  duration_minutes : Int
  program_id : Option String
  created_at : Nat
  updated_at : Nat
  deriving DecidableEq, Repr

/-- exercises table row (migration 003; dynamic fields are the ones the
handlers read back through type assertions). -/
structure Exercises where
  id : String
  name : GoDyn
  description : String
  muscle_group : GoDyn
  equipment : GoDyn
  difficulty_level : GoDyn
  instructions : String
  created_at : Nat
  updated_at : Nat
  deriving DecidableEq, Repr

/-- workout_exercises join-table row (migration 004; no updated_at). -/
structure Workout_exercises where
  id : String
  workout_id : String
  exercise_id : String
  sets : Int
  reps : Int
  weight_kg : Rat
  duration_seconds : Int
  order_index : Int
  rest_seconds : Int
  notes : String
  created_at : Nat
  deriving DecidableEq, Repr

/-- workout_sessions table row (migration 005; optional columns are held
behind pointers by the handlers). -/
structure Workout_sessions where
  id : String
  user_id : String
  workout_id : Option String
  name : String
  started_at : Nat
  completed_at : Option Nat
  duration_minutes : Option Int
  notes : Option String
  created_at : Nat
  updated_at : Nat
  deriving DecidableEq, Repr

/-- programs table row (migration 006; Name and Difficulty are read back
through type assertions in the programs handler file). -/
structure Programs where
  id : String
  name : GoDyn
  description : String
  user_id : String
  duration_weeks : Int
  difficulty : GoDyn
  is_active : Bool
  created_at : Nat
  updated_at : Nat
  deriving DecidableEq, Repr

/-! Request and response DTOs from internal/database/response_types.go and
the programs handler file. -/

structure UserResponse where
  id : String
  email : String
  username : String
  firstName : String
  lastName : String
  createdAt : Nat
  updatedAt : Nat
  deriving DecidableEq, Repr

structure CreateUserRequest where
  email : String
  username : String
  password : String
  firstName : String
  lastName : String
  deriving DecidableEq, Repr

structure UpdateUserRequest where
  email : Option String
  username : Option String
  firstName : Option String
  lastName : Option String
  deriving DecidableEq, Repr

structure WorkoutResponse where
  id : String
  userId : String
  name : String
  description : String
  durationMinutes : Int
  programId : String
  createdAt : Nat
  updatedAt : Nat
  deriving DecidableEq, Repr

structure CreateWorkoutRequest where
  name : String
  description : String
  durationMinutes : Int
  programId : String
  deriving DecidableEq, Repr

structure UpdateWorkoutRequest where
  name : Option String
  description : Option String
  durationMinutes : Option Int
  programId : Option String
  deriving DecidableEq, Repr

structure ExerciseResponse where
  id : String
  name : String
  description : String
  muscleGroup : String
  equipment : String
  difficultyLevel : String
  instructions : String
  createdAt : Nat
  updatedAt : Nat
  deriving DecidableEq, Repr

structure CreateExerciseRequest where
  name : String
  description : String
  muscleGroup : String
  equipment : String
  difficultyLevel : String
  instructions : String
  deriving DecidableEq, Repr

structure UpdateExerciseRequest where
  name : Option String
  description : Option String
  muscleGroup : Option String
  equipment : Option String
  difficultyLevel : Option String
  instructions : Option String
  deriving DecidableEq, Repr

structure WorkoutExerciseResponse where
  id : String
  workoutId : String
  exerciseId : String
  sets : Int
  reps : Int
  weightKg : Rat
  durationSeconds : Int
  orderIndex : Int
  restSeconds : Int
  notes : String
  createdAt : Nat
  deriving DecidableEq, Repr

structure CreateWorkoutExerciseRequest where
  workoutId : String
  exerciseId : String
  sets : Int
  reps : Int
  weightKg : Rat
  durationSeconds : Int
  orderIndex : Int
  restSeconds : Int
  notes : String
  deriving DecidableEq, Repr

structure UpdateWorkoutExerciseRequest where
  workoutId : Option String
  exerciseId : Option String
  sets : Option Int
  reps : Option Int
  weightKg : Option Rat
  durationSeconds : Option Int
  orderIndex : Option Int
  restSeconds : Option Int
  notes : Option String
  deriving DecidableEq, Repr

structure WorkoutSessionResponse where
  id : String
  userId : String
  workoutId : Option String
  name : String
  startedAt : Nat
  completedAt : Option Nat
  durationMinutes : Option Int
  notes : Option String
  createdAt : Nat
  updatedAt : Nat
  deriving DecidableEq, Repr

structure CreateWorkoutSessionRequest where
  workoutId : Option String
  name : String
  startedAt : Option Nat
  completedAt : Option Nat
  durationMinutes : Option Int
  notes : Option String
  deriving DecidableEq, Repr

structure UpdateWorkoutSessionRequest where
  workoutId : Option String
  name : Option String
  startedAt : Option Nat
  completedAt : Option Nat
  durationMinutes : Option Int
  notes : Option String
  deriving DecidableEq, Repr

structure ProgramResponse where
  id : String
  name : String
  description : Option String
  userId : String
  durationWeeks : Option Int
  difficulty : Option String
  isActive : Bool
  createdAt : Nat
  updatedAt : Nat
  deriving DecidableEq, Repr

structure CreateProgramRequest where
  name : String
  description : Option String
  durationWeeks : Option Int
  difficulty : Option String
  deriving DecidableEq, Repr

structure UpdateProgramRequest where
  name : Option String
  description : Option String
  durationWeeks : Option Int
  difficulty : Option String
  isActive : Option Bool
  deriving DecidableEq, Repr

/-! Cache layer: the Redis client used via SetCache / GetCache /
DeleteCache in server.go, and the raw s.cache.Del calls in the handlers. -/

/-- Structured cache payloads; these stand for the JSON bytes the handlers
marshal. A stored payload of a different shape than the reader expects is
exactly a json.Unmarshal failure. -/
inductive CacheVal where
  | user (u : Users)
  | userList (l : List Users)
  | workout (w : Workouts)
  | workoutList (l : List Workouts)
  | exercise (e : Exercises)
  | exerciseList (l : List Exercises)
  | workoutExercise (x : Workout_exercises)
  | workoutExerciseList (l : List Workout_exercises)
  | workoutSession (x : Workout_sessions)
  | workoutSessionList (l : List Workout_sessions)
  deriving DecidableEq, Repr

/-- Redis key space plus availability. up = false is a cache backend that
is unreachable for the whole run: every command errors out. -/
structure CacheState where
  up : Bool
  entries : List (String × CacheVal)
  deriving DecidableEq, Repr

/-- GetCache (server.go): redis GET; an error (backend down or key
missing) is reported to the caller, which treats it as a miss. -/
def GetCache (c : CacheState) (k : String) : Option CacheVal :=
  if c.up then (c.entries.find? (fun e => e.1 == k)).map (fun e => e.2) else none

/-- SetCache (server.go): redis SET with TTL; overwrites the key. The
callers ignore the returned error, so a failed SET leaves the state as is. -/
def SetCache (c : CacheState) (k : String) (v : CacheVal) : CacheState :=
  if c.up then { c with entries := (k, v) :: c.entries.filter (fun e => !(e.1 == k)) } else c

/-- DeleteCache (server.go): redis DEL of one key name. -/
def DeleteCache (c : CacheState) (k : String) : CacheState :=
  if c.up then { c with entries := c.entries.filter (fun e => !(e.1 == k)) } else c

/-- s.cache.Del from go-redis, as called with the list-family argument in
every mutating handler. The Redis DEL command takes literal key names: a
star in the argument is part of the key, not a glob, so this removes at
most the single key that is literally named by the argument. -/
def redisDel (c : CacheState) (k : String) : CacheState :=
  DeleteCache c k

/-! Cache key helpers, one pair per cached resource kind. -/

def userCacheKey (id : String) : String := "user:" ++ id

def usersListCacheKey (limit offset : Int) : String :=
  "users:list:" ++ toString limit ++ ":" ++ toString offset

def workoutCacheKey (id : String) : String := "workout:" ++ id

def workoutsListCacheKey (limit offset : Int) : String :=
  "workouts:list:" ++ toString limit ++ ":" ++ toString offset

def exerciseCacheKey (id : String) : String := "exercise:" ++ id

def exercisesListCacheKey (limit offset : Int) : String :=
  "exercises:list:" ++ toString limit ++ ":" ++ toString offset

def workoutExerciseCacheKey (id : String) : String := "workout_exercise:" ++ id

def workoutExercisesListCacheKey (limit offset : Int) : String :=
  "workout_exercises:list:" ++ toString limit ++ ":" ++ toString offset

def workoutSessionCacheKey (id : String) : String := "workout_session:" ++ id

def workoutSessionsListCacheKey (limit offset : Int) : String :=
  "workout_sessions:list:" ++ toString limit ++ ":" ++ toString offset

/-! Record store: internal/database/database.go. Each table is a row
list; up = false is a connection/timeout failure of the store. -/

structure Db where
  up : Bool
  users : List Users
  workouts : List Workouts
  exercises : List Exercises
  workout_exercises : List Workout_exercises
  workout_sessions : List Workout_sessions
  programs : List Programs
  deriving DecidableEq, Repr

inductive DbErr where
  | notFound
  | unavailable
  | noRow
  deriving DecidableEq, Repr

/-- ORDER BY created_at DESC: descending insertion sort on the creation
tick. -/
def insertDescBy {α : Type} (key : α → Nat) (x : α) : List α → List α
  | [] => [x]
  | y :: ys => if key y < key x then x :: y :: ys else y :: insertDescBy key x ys

def sortByCreatedDesc {α : Type} (key : α → Nat) : List α → List α
  | [] => []
  | x :: xs => insertDescBy key x (sortByCreatedDesc key xs)

/-- SELECT * ... ORDER BY created_at DESC LIMIT $1 OFFSET $2. -/
def pageRows {α : Type} (key : α → Nat) (rows : List α) (limit offset : Int) : List α :=
  (((sortByCreatedDesc key rows).drop offset.toNat).take limit.toNat)

def dbGetUserByID (db : Db) (id : String) : Except DbErr Users :=
  if db.up then
    match db.users.find? (fun u => u.id == id) with
    | some u => .ok u
    | none => .error .notFound
  else .error .unavailable

def dbListUsers (db : Db) (limit offset : Int) : Except DbErr (List Users) :=
  if db.up then .ok (pageRows (fun u => u.created_at) db.users limit offset)
  else .error .unavailable

/-- INSERT ... RETURNING *: the store assigns the row id. -/
def dbCreateUser (db : Db) (u : Users) (newId : String) : Except DbErr (Users × Db) :=
  if db.up then
    let created := { u with id := newId }
    .ok (created, { db with users := db.users ++ [created] })
  else .error .unavailable

/-- UPDATE users SET ... WHERE id=:id RETURNING *; no matching row makes
row.Next() fail, reported as a generic error. -/
def dbUpdateUser (db : Db) (u : Users) : Except DbErr (Users × Db) :=
  if db.up then
    if db.users.any (fun r => r.id == u.id) then
      .ok (u, { db with users := db.users.map (fun r => if r.id == u.id then u else r) })
    else .error .noRow
  else .error .unavailable

/-- DELETE FROM users WHERE id = $1: ExecContext ignores the affected-row
count, so a missing id is still a success. -/
def dbDeleteUser (db : Db) (id : String) : Except DbErr Db :=
  if db.up then .ok { db with users := db.users.filter (fun r => !(r.id == id)) }
  else .error .unavailable

def dbGetWorkoutByID (db : Db) (id : String) : Except DbErr Workouts :=
  if db.up then
    match db.workouts.find? (fun w => w.id == id) with
    | some w => .ok w
    | none => .error .notFound
  else .error .unavailable

def dbListWorkouts (db : Db) (limit offset : Int) : Except DbErr (List Workouts) :=
  if db.up then .ok (pageRows (fun w => w.created_at) db.workouts limit offset)
  else .error .unavailable

def dbCreateWorkout (db : Db) (w : Workouts) (newId : String) : Except DbErr (Workouts × Db) :=
  if db.up then
    let created := { w with id := newId }
    .ok (created, { db with workouts := db.workouts ++ [created] })
  else .error .unavailable

def dbUpdateWorkout (db : Db) (w : Workouts) : Except DbErr (Workouts × Db) :=
  if db.up then
    if db.workouts.any (fun r => r.id == w.id) then
      .ok (w, { db with workouts := db.workouts.map (fun r => if r.id == w.id then w else r) })
    else .error .noRow
  else .error .unavailable

def dbDeleteWorkout (db : Db) (id : String) : Except DbErr Db :=
  if db.up then .ok { db with workouts := db.workouts.filter (fun r => !(r.id == id)) }
  else .error .unavailable

def dbGetExerciseByID (db : Db) (id : String) : Except DbErr Exercises :=
  if db.up then
    match db.exercises.find? (fun e => e.id == id) with
    | some e => .ok e
    | none => .error .notFound
  else .error .unavailable

def dbListExercises (db : Db) (limit offset : Int) : Except DbErr (List Exercises) :=
  if db.up then .ok (pageRows (fun e => e.created_at) db.exercises limit offset)
  else .error .unavailable

def dbCreateExercise (db : Db) (e : Exercises) (newId : String) : Except DbErr (Exercises × Db) :=
  if db.up then
    let created := { e with id := newId }
    .ok (created, { db with exercises := db.exercises ++ [created] })
  else .error .unavailable

def dbUpdateExercise (db : Db) (e : Exercises) : Except DbErr (Exercises × Db) :=
  if db.up then
    if db.exercises.any (fun r => r.id == e.id) then
      .ok (e, { db with exercises := db.exercises.map (fun r => if r.id == e.id then e else r) })
    else .error .noRow
  else .error .unavailable

def dbDeleteExercise (db : Db) (id : String) : Except DbErr Db :=
  if db.up then .ok { db with exercises := db.exercises.filter (fun r => !(r.id == id)) }
  else .error .unavailable

def dbGetWorkoutExerciseByID (db : Db) (id : String) : Except DbErr Workout_exercises :=
  if db.up then
    match db.workout_exercises.find? (fun x => x.id == id) with
    | some x => .ok x
    | none => .error .notFound
  else .error .unavailable

def dbListWorkoutExercises (db : Db) (limit offset : Int) :
    Except DbErr (List Workout_exercises) :=
  if db.up then .ok (pageRows (fun x => x.created_at) db.workout_exercises limit offset)
  else .error .unavailable

def dbCreateWorkoutExercise (db : Db) (x : Workout_exercises) (newId : String) :
    Except DbErr (Workout_exercises × Db) :=
  if db.up then
    let created := { x with id := newId }
    .ok (created, { db with workout_exercises := db.workout_exercises ++ [created] })
  else .error .unavailable

def dbUpdateWorkoutExercise (db : Db) (x : Workout_exercises) :
    Except DbErr (Workout_exercises × Db) :=
  if db.up then
    if db.workout_exercises.any (fun r => r.id == x.id) then
      .ok (x, { db with workout_exercises :=
        db.workout_exercises.map (fun r => if r.id == x.id then x else r) })
    else .error .noRow
  else .error .unavailable

def dbDeleteWorkoutExercise (db : Db) (id : String) : Except DbErr Db :=
  if db.up then
    .ok { db with workout_exercises := db.workout_exercises.filter (fun r => !(r.id == id)) }
  else .error .unavailable

def dbGetWorkoutSessionByID (db : Db) (id : String) : Except DbErr Workout_sessions :=
  if db.up then
    match db.workout_sessions.find? (fun x => x.id == id) with
    | some x => .ok x
    | none => .error .notFound
  else .error .unavailable

def dbListWorkoutSessions (db : Db) (limit offset : Int) :
    Except DbErr (List Workout_sessions) :=
  if db.up then .ok (pageRows (fun x => x.created_at) db.workout_sessions limit offset)
  else .error .unavailable

def dbCreateWorkoutSession (db : Db) (x : Workout_sessions) (newId : String) :
    Except DbErr (Workout_sessions × Db) :=
  if db.up then
    let created := { x with id := newId }
    .ok (created, { db with workout_sessions := db.workout_sessions ++ [created] })
  else .error .unavailable

def dbUpdateWorkoutSession (db : Db) (x : Workout_sessions) :
    Except DbErr (Workout_sessions × Db) :=
  if db.up then
    if db.workout_sessions.any (fun r => r.id == x.id) then
      .ok (x, { db with workout_sessions :=
        db.workout_sessions.map (fun r => if r.id == x.id then x else r) })
    else .error .noRow
  else .error .unavailable

def dbDeleteWorkoutSession (db : Db) (id : String) : Except DbErr Db :=
  if db.up then
    .ok { db with workout_sessions := db.workout_sessions.filter (fun r => !(r.id == id)) }
  else .error .unavailable

def dbGetProgramByID (db : Db) (id : String) : Except DbErr Programs :=
  if db.up then
    match db.programs.find? (fun p => p.id == id) with
    | some p => .ok p
    | none => .error .notFound
  else .error .unavailable

def dbListPrograms (db : Db) (limit offset : Int) : Except DbErr (List Programs) :=
  if db.up then .ok (pageRows (fun p => p.created_at) db.programs limit offset)
  else .error .unavailable

/-- The programs handler generates the id itself (uuid.New), so the insert
stores the row as given. -/
def dbCreateProgram (db : Db) (p : Programs) : Except DbErr (Programs × Db) :=
  if db.up then .ok (p, { db with programs := db.programs ++ [p] })
  else .error .unavailable

def dbUpdateProgram (db : Db) (p : Programs) : Except DbErr (Programs × Db) :=
  if db.up then
    if db.programs.any (fun r => r.id == p.id) then
      .ok (p, { db with programs := db.programs.map (fun r => if r.id == p.id then p else r) })
    else .error .noRow
  else .error .unavailable

def dbDeleteProgram (db : Db) (id : String) : Except DbErr Db :=
  if db.up then .ok { db with programs := db.programs.filter (fun r => !(r.id == id)) }
  else .error .unavailable

/-! Pagination parsing, routes.go getPaginationParams. -/

/-- strconv.Atoi as used with its error ignored: syntactically invalid
input yields 0 (the Go zero value that the caller keeps). -/
def goAtoi (s : String) : Int :=
  match s.toList with
  | '-' :: rest =>
    if rest ≠ [] ∧ rest.all (fun c => c.isDigit) then
      -(((rest.foldl (fun a c => a * 10 + (c.toNat - 48)) 0 : Nat) : Int))
    else 0
  | '+' :: rest =>
    if rest ≠ [] ∧ rest.all (fun c => c.isDigit) then
      ((rest.foldl (fun a c => a * 10 + (c.toNat - 48)) 0 : Nat) : Int)
    else 0
  | l =>
    if l ≠ [] ∧ l.all (fun c => c.isDigit) then
      ((l.foldl (fun a c => a * 10 + (c.toNat - 48)) 0 : Nat) : Int)
    else 0

/-- getPaginationParams (routes.go): query parameters default to "10" and
"0" when absent; parse errors are ignored; out-of-range limits fall back
to 10 and negative offsets to 0. -/
def getPaginationParams (limitQ offsetQ : Option String) : Int × Int :=
  let limitStr := limitQ.getD "10"
  let offsetStr := offsetQ.getD "0"
  let limit := goAtoi limitStr
  let offset := goAtoi offsetStr
  let limit := if limit ≤ 0 ∨ limit > 100 then 10 else limit
  let offset := if offset < 0 then 0 else offset
  (limit, offset)

/-! Server state and the HTTP handler layer. Each handler is a function
from state and request data to a response plus the successor state. -/

/-- A Fiber handler outcome: a JSON success with a status code and body,
or an error response with a status code. -/
inductive HRes (β : Type) where
  | ok (status : Nat) (body : β)
  | err (status : Nat)
  deriving DecidableEq, Repr

structure SState where
  db : Db
  cache : CacheState
  deriving DecidableEq, Repr

/-- The Go pattern: if req.X != nil, field = *req.X. -/
def updIf {α : Type} (cur : α) : Option α → α
  | some v => v
  | none => cur

/-- The Go pattern storing the dereferenced request string into a dynamic
model field: if req.X != nil, field = *req.X. -/
def updStr (cur : GoDyn) : Option String → GoDyn
  | some v => .str v
  | none => cur

/-- The Go pattern storing the request pointer itself into a dynamic model
field: if req.X != nil, field = req.X. -/
def updStrPtr (cur : GoDyn) : Option String → GoDyn
  | some v => .strPtr v
  | none => cur

/-- The Go pattern storing the request pointer into a pointer-typed model
field: if req.X != nil, field = req.X. -/
def updPtr {α : Type} (cur : Option α) : Option α → Option α
  | some v => some v
  | none => cur

/-! Users handlers (server.go, matching response_types.go). -/

/-- userToResponse: copies the row into the response DTO through string
type assertions; the password hash is not part of the response. -/
def userToResponse (u : Users) : UserResponse :=
  { id := u.id
    email := u.email.asString
    username := u.username.asString
    firstName := u.first_name.asString
    lastName := u.last_name.asString
    createdAt := u.created_at
    updatedAt := u.updated_at }

/-- createUser handler: hash the password (the produced hash is a
parameter), insert, then invalidate the users list cache with the literal
Del argument. -/
def createUser (s : SState) (req : CreateUserRequest) (now : Nat) (newId hash : String) :
    HRes UserResponse × SState :=
  let user : Users :=
    { id := ""
      email := .str req.email
      username := .str req.username
      password_hash := .str hash
      first_name := .str req.firstName
      last_name := .str req.lastName
      created_at := now
      updated_at := now }
  match dbCreateUser s.db user newId with
  | .error _ => (.err 500, s)
  | .ok (created, db) =>
    (.ok 201 (userToResponse created), { db := db, cache := redisDel s.cache "users:list:*" })

/-- getUser handler: cache first; on miss read the store, 404 on any store
error, then cache the row with a blanked password hash. -/
def getUser (s : SState) (id : String) : HRes UserResponse × SState :=
  if id = "" then (.err 400, s) else
  match GetCache s.cache (userCacheKey id) with
  | some (.user u) => (.ok 200 (userToResponse u), s)
  | _ =>
    match dbGetUserByID s.db id with
    | .error _ => (.err 404, s)
    | .ok user =>
      let userToCache := { user with password_hash := GoDyn.str "" }
      (.ok 200 (userToResponse user),
        { s with cache := SetCache s.cache (userCacheKey id) (.user userToCache) })

/-- listUsers handler: cache first; on miss read the store, 500 on store
error, then cache the rows with blanked password hashes. -/
def listUsers (s : SState) (limit offset : Int) : HRes (List UserResponse) × SState :=
  match GetCache s.cache (usersListCacheKey limit offset) with
  | some (.userList users) => (.ok 200 (users.map userToResponse), s)
  | _ =>
    match dbListUsers s.db limit offset with
    | .error _ => (.err 500, s)
    | .ok users =>
      let usersToCache := users.map (fun u => { u with password_hash := GoDyn.str "" })
      (.ok 200 (users.map userToResponse),
        { s with cache :=
            SetCache s.cache (usersListCacheKey limit offset) (.userList usersToCache) })

/-- updateUser handler: read the existing row (404 on any store error),
apply the provided fields, refresh updated_at, write back (500 on store
error), then delete the point key and issue the literal list Del. -/
def updateUser (s : SState) (id : String) (req : UpdateUserRequest) (now : Nat) :
    HRes UserResponse × SState :=
  if id = "" then (.err 400, s) else
  match dbGetUserByID s.db id with
  | .error _ => (.err 404, s)
  | .ok existingUser =>
    let existingUser :=
      { existingUser with
          email := updStr existingUser.email req.email
          username := updStr existingUser.username req.username
          first_name := updStr existingUser.first_name req.firstName
          last_name := updStr existingUser.last_name req.lastName
          updated_at := now }
    match dbUpdateUser s.db existingUser with
    | .error _ => (.err 500, s)
    | .ok (updated, db) =>
      (.ok 200 (userToResponse updated),
        { db := db, cache := redisDel (DeleteCache s.cache (userCacheKey id)) "users:list:*" })

/-- deleteUser handler: 204 on store success (regardless of whether a row
existed), then point-key delete and literal list Del. -/
def deleteUser (s : SState) (id : String) : HRes Unit × SState :=
  if id = "" then (.err 400, s) else
  match dbDeleteUser s.db id with
  | .error _ => (.err 500, s)
  | .ok db =>
    (.ok 204 (), { db := db, cache := redisDel (DeleteCache s.cache (userCacheKey id)) "users:list:*" })

/-! Workouts handlers (workouts.go). -/

/-- workoutToResponse: copies the row into the response DTO; the ProgramID
response field is not assigned and keeps its zero value. -/
def workoutToResponse (w : Workouts) : WorkoutResponse :=
  { id := w.id
    userId := w.user_id
    name := w.name
    description := w.description
    durationMinutes := w.duration_minutes
    programId := ""
    createdAt := w.created_at
    updatedAt := w.updated_at }

/-- createWorkout handler: the owning user id comes from the JWT; the row
is built with zero timestamps and without the request's ProgramID. -/
def createWorkout (s : SState) (req : CreateWorkoutRequest) (userID newId : String) :
    HRes WorkoutResponse × SState :=
  let workout : Workouts :=
    { id := ""
      user_id := userID
      name := req.name
      description := req.description
      duration_minutes := req.durationMinutes
      program_id := none
      created_at := 0
      updated_at := 0 }
  match dbCreateWorkout s.db workout newId with
  | .error _ => (.err 500, s)
  | .ok (created, db) =>
    (.ok 201 (workoutToResponse created), { db := db, cache := redisDel s.cache "workouts:list:*" })

def getWorkout (s : SState) (id : String) : HRes WorkoutResponse × SState :=
  if id = "" then (.err 400, s) else
  match GetCache s.cache (workoutCacheKey id) with
  | some (.workout w) => (.ok 200 (workoutToResponse w), s)
  | _ =>
    match dbGetWorkoutByID s.db id with
    | .error _ => (.err 404, s)
    | .ok workout =>
      (.ok 200 (workoutToResponse workout),
        { s with cache := SetCache s.cache (workoutCacheKey id) (.workout workout) })

def listWorkouts (s : SState) (limit offset : Int) : HRes (List WorkoutResponse) × SState :=
  match GetCache s.cache (workoutsListCacheKey limit offset) with
  | some (.workoutList workouts) => (.ok 200 (workouts.map workoutToResponse), s)
  | _ =>
    match dbListWorkouts s.db limit offset with
    | .error _ => (.err 500, s)
    | .ok workouts =>
      (.ok 200 (workouts.map workoutToResponse),
        { s with cache :=
            SetCache s.cache (workoutsListCacheKey limit offset) (.workoutList workouts) })

/-- updateWorkout handler: applies Name, Description and DurationMinutes
when provided and refreshes updated_at; the request's ProgramID field is
never read. -/
def updateWorkout (s : SState) (id : String) (req : UpdateWorkoutRequest) (now : Nat) :
    HRes WorkoutResponse × SState :=
  if id = "" then (.err 400, s) else
  match dbGetWorkoutByID s.db id with
  | .error _ => (.err 404, s)
  | .ok existingWorkout =>
    let existingWorkout :=
      { existingWorkout with
          name := updIf existingWorkout.name req.name
          description := updIf existingWorkout.description req.description
          duration_minutes := updIf existingWorkout.duration_minutes req.durationMinutes
          updated_at := now }
    match dbUpdateWorkout s.db existingWorkout with
    | .error _ => (.err 500, s)
    | .ok (updated, db) =>
      (.ok 200 (workoutToResponse updated),
        { db := db
          cache := redisDel (DeleteCache s.cache (workoutCacheKey id)) "workouts:list:*" })

def deleteWorkout (s : SState) (id : String) : HRes Unit × SState :=
  if id = "" then (.err 400, s) else
  match dbDeleteWorkout s.db id with
  | .error _ => (.err 500, s)
  | .ok db =>
    (.ok 204 (),
      { db := db, cache := redisDel (DeleteCache s.cache (workoutCacheKey id)) "workouts:list:*" })

/-! Exercises handlers (exercises.go). -/

def exerciseToResponse (e : Exercises) : ExerciseResponse :=
  { id := e.id
    name := e.name.asString
    description := e.description
    muscleGroup := e.muscle_group.asString
    equipment := e.equipment.asString
    difficultyLevel := e.difficulty_level.asString
    instructions := e.instructions
    createdAt := e.created_at
    updatedAt := e.updated_at }

def createExercise (s : SState) (req : CreateExerciseRequest) (now : Nat) (newId : String) :
    HRes ExerciseResponse × SState :=
  let exercise : Exercises :=
    { id := ""
      name := .str req.name
      description := req.description
      muscle_group := .str req.muscleGroup
      equipment := .str req.equipment
      difficulty_level := .str req.difficultyLevel
      instructions := req.instructions
      created_at := now
      updated_at := now }
  match dbCreateExercise s.db exercise newId with
  | .error _ => (.err 500, s)
  | .ok (created, db) =>
    (.ok 201 (exerciseToResponse created),
      { db := db, cache := redisDel s.cache "exercises:list:*" })

def getExercise (s : SState) (id : String) : HRes ExerciseResponse × SState :=
  if id = "" then (.err 400, s) else
  match GetCache s.cache (exerciseCacheKey id) with
  | some (.exercise e) => (.ok 200 (exerciseToResponse e), s)
  | _ =>
    match dbGetExerciseByID s.db id with
    | .error _ => (.err 404, s)
    | .ok exercise =>
      (.ok 200 (exerciseToResponse exercise),
        { s with cache := SetCache s.cache (exerciseCacheKey id) (.exercise exercise) })

def listExercises (s : SState) (limit offset : Int) : HRes (List ExerciseResponse) × SState :=
  match GetCache s.cache (exercisesListCacheKey limit offset) with
  | some (.exerciseList exercises) => (.ok 200 (exercises.map exerciseToResponse), s)
  | _ =>
    match dbListExercises s.db limit offset with
    | .error _ => (.err 500, s)
    | .ok exercises =>
      (.ok 200 (exercises.map exerciseToResponse),
        { s with cache :=
            SetCache s.cache (exercisesListCacheKey limit offset) (.exerciseList exercises) })

/-- updateExercise handler: every provided field but Equipment is stored
dereferenced; Equipment stores the request pointer itself. -/
def updateExercise (s : SState) (id : String) (req : UpdateExerciseRequest) (now : Nat) :
    HRes ExerciseResponse × SState :=
  if id = "" then (.err 400, s) else
  match dbGetExerciseByID s.db id with
  | .error _ => (.err 404, s)
  | .ok existingExercise =>
    let existingExercise :=
      { existingExercise with
          name := updStr existingExercise.name req.name
          description := updIf existingExercise.description req.description
          muscle_group := updStr existingExercise.muscle_group req.muscleGroup
          equipment := updStrPtr existingExercise.equipment req.equipment
          difficulty_level := updStr existingExercise.difficulty_level req.difficultyLevel
          instructions := updIf existingExercise.instructions req.instructions
          updated_at := now }
    match dbUpdateExercise s.db existingExercise with
    | .error _ => (.err 500, s)
    | .ok (updated, db) =>
      (.ok 200 (exerciseToResponse updated),
        { db := db
          cache := redisDel (DeleteCache s.cache (exerciseCacheKey id)) "exercises:list:*" })

def deleteExercise (s : SState) (id : String) : HRes Unit × SState :=
  if id = "" then (.err 400, s) else
  match dbDeleteExercise s.db id with
  | .error _ => (.err 500, s)
  | .ok db =>
    (.ok 204 (),
      { db := db, cache := redisDel (DeleteCache s.cache (exerciseCacheKey id)) "exercises:list:*" })

/-! Workout-exercises handlers (the workout-exercises handler file,
matching response_types.go; decimal.NewFromFloat and InexactFloat64 are
modelled as the identity on exact rationals). -/

def workoutExerciseToResponse (x : Workout_exercises) : WorkoutExerciseResponse :=
  { id := x.id
    workoutId := x.workout_id
    exerciseId := x.exercise_id
    sets := x.sets
    reps := x.reps
    weightKg := x.weight_kg
    durationSeconds := x.duration_seconds
    orderIndex := x.order_index
    restSeconds := x.rest_seconds
    notes := x.notes
    createdAt := x.created_at }

def createWorkoutExercise (s : SState) (req : CreateWorkoutExerciseRequest)
    (now : Nat) (newId : String) : HRes WorkoutExerciseResponse × SState :=
  let workoutExercise : Workout_exercises :=
    { id := ""
      workout_id := req.workoutId
      exercise_id := req.exerciseId
      sets := req.sets
      reps := req.reps
      weight_kg := req.weightKg
      duration_seconds := req.durationSeconds
      order_index := req.orderIndex
      rest_seconds := req.restSeconds
      notes := req.notes
      created_at := now }
  match dbCreateWorkoutExercise s.db workoutExercise newId with
  | .error _ => (.err 500, s)
  | .ok (created, db) =>
    (.ok 201 (workoutExerciseToResponse created),
      { db := db, cache := redisDel s.cache "workout_exercises:list:*" })

def getWorkoutExercise (s : SState) (id : String) : HRes WorkoutExerciseResponse × SState :=
  if id = "" then (.err 400, s) else
  match GetCache s.cache (workoutExerciseCacheKey id) with
  | some (.workoutExercise x) => (.ok 200 (workoutExerciseToResponse x), s)
  | _ =>
    match dbGetWorkoutExerciseByID s.db id with
    | .error _ => (.err 404, s)
    | .ok workoutExercise =>
      (.ok 200 (workoutExerciseToResponse workoutExercise),
        { s with cache :=
            SetCache s.cache (workoutExerciseCacheKey id) (.workoutExercise workoutExercise) })

def listWorkoutExercises (s : SState) (limit offset : Int) :
    HRes (List WorkoutExerciseResponse) × SState :=
  match GetCache s.cache (workoutExercisesListCacheKey limit offset) with
  | some (.workoutExerciseList xs) => (.ok 200 (xs.map workoutExerciseToResponse), s)
  | _ =>
    match dbListWorkoutExercises s.db limit offset with
    | .error _ => (.err 500, s)
    | .ok xs =>
      (.ok 200 (xs.map workoutExerciseToResponse),
        { s with cache :=
            SetCache s.cache (workoutExercisesListCacheKey limit offset) (.workoutExerciseList xs) })

/-- updateWorkoutExercise handler: the join row has no updated_at, so no
clock is read. -/
def updateWorkoutExercise (s : SState) (id : String) (req : UpdateWorkoutExerciseRequest) :
    HRes WorkoutExerciseResponse × SState :=
  if id = "" then (.err 400, s) else
  match dbGetWorkoutExerciseByID s.db id with
  | .error _ => (.err 404, s)
  | .ok existing =>
    let existing :=
      { existing with
          workout_id := updIf existing.workout_id req.workoutId
          exercise_id := updIf existing.exercise_id req.exerciseId
          sets := updIf existing.sets req.sets
          reps := updIf existing.reps req.reps
          weight_kg := updIf existing.weight_kg req.weightKg
          duration_seconds := updIf existing.duration_seconds req.durationSeconds
          order_index := updIf existing.order_index req.orderIndex
          rest_seconds := updIf existing.rest_seconds req.restSeconds
          notes := updIf existing.notes req.notes }
    match dbUpdateWorkoutExercise s.db existing with
    | .error _ => (.err 500, s)
    | .ok (updated, db) =>
      (.ok 200 (workoutExerciseToResponse updated),
        { db := db
          cache := redisDel (DeleteCache s.cache (workoutExerciseCacheKey id))
            "workout_exercises:list:*" })

def deleteWorkoutExercise (s : SState) (id : String) : HRes Unit × SState :=
  if id = "" then (.err 400, s) else
  match dbDeleteWorkoutExercise s.db id with
  | .error _ => (.err 500, s)
  | .ok db =>
    (.ok 204 (),
      { db := db
        cache := redisDel (DeleteCache s.cache (workoutExerciseCacheKey id))
          "workout_exercises:list:*" })

/-! Workout-sessions handlers (workout_sessions.go). -/

def workoutSessionToResponse (x : Workout_sessions) : WorkoutSessionResponse :=
  { id := x.id
    userId := x.user_id
    workoutId := x.workout_id
    name := x.name
    startedAt := x.started_at
    completedAt := x.completed_at
    durationMinutes := x.duration_minutes
    notes := x.notes
    createdAt := x.created_at
    updatedAt := x.updated_at }

def createWorkoutSession (s : SState) (req : CreateWorkoutSessionRequest)
    (userID : String) (now : Nat) (newId : String) : HRes WorkoutSessionResponse × SState :=
  let startedAt := updIf now req.startedAt
  let workoutSession : Workout_sessions :=
    { id := ""
      user_id := userID
      workout_id := req.workoutId
      name := req.name
      started_at := startedAt
      completed_at := req.completedAt
      duration_minutes := req.durationMinutes
      notes := req.notes
      created_at := now
      updated_at := now }
  match dbCreateWorkoutSession s.db workoutSession newId with
  | .error _ => (.err 500, s)
  | .ok (created, db) =>
    (.ok 201 (workoutSessionToResponse created),
      { db := db, cache := redisDel s.cache "workout_sessions:list:*" })

def getWorkoutSession (s : SState) (id : String) : HRes WorkoutSessionResponse × SState :=
  if id = "" then (.err 400, s) else
  match GetCache s.cache (workoutSessionCacheKey id) with
  | some (.workoutSession x) => (.ok 200 (workoutSessionToResponse x), s)
  | _ =>
    match dbGetWorkoutSessionByID s.db id with
    | .error _ => (.err 404, s)
    | .ok workoutSession =>
      (.ok 200 (workoutSessionToResponse workoutSession),
        { s with cache :=
            SetCache s.cache (workoutSessionCacheKey id) (.workoutSession workoutSession) })

def listWorkoutSessions (s : SState) (limit offset : Int) :
    HRes (List WorkoutSessionResponse) × SState :=
  match GetCache s.cache (workoutSessionsListCacheKey limit offset) with
  | some (.workoutSessionList xs) => (.ok 200 (xs.map workoutSessionToResponse), s)
  | _ =>
    match dbListWorkoutSessions s.db limit offset with
    | .error _ => (.err 500, s)
    | .ok xs =>
      (.ok 200 (xs.map workoutSessionToResponse),
        { s with cache :=
            SetCache s.cache (workoutSessionsListCacheKey limit offset) (.workoutSessionList xs) })

/-- updateWorkoutSession handler: Name and StartedAt are stored
dereferenced; WorkoutID, CompletedAt, DurationMinutes and Notes store the
request pointer itself. -/
def updateWorkoutSession (s : SState) (id : String) (req : UpdateWorkoutSessionRequest)
    (now : Nat) : HRes WorkoutSessionResponse × SState :=
  if id = "" then (.err 400, s) else
  match dbGetWorkoutSessionByID s.db id with
  | .error _ => (.err 404, s)
  | .ok existing =>
    let existing :=
      { existing with
          workout_id := updPtr existing.workout_id req.workoutId
          name := updIf existing.name req.name
          started_at := updIf existing.started_at req.startedAt
          completed_at := updPtr existing.completed_at req.completedAt
          duration_minutes := updPtr existing.duration_minutes req.durationMinutes
          notes := updPtr existing.notes req.notes
          updated_at := now }
    match dbUpdateWorkoutSession s.db existing with
    | .error _ => (.err 500, s)
    | .ok (updated, db) =>
      (.ok 200 (workoutSessionToResponse updated),
        { db := db
          cache := redisDel (DeleteCache s.cache (workoutSessionCacheKey id))
            "workout_sessions:list:*" })

def deleteWorkoutSession (s : SState) (id : String) : HRes Unit × SState :=
  if id = "" then (.err 400, s) else
  match dbDeleteWorkoutSession s.db id with
  | .error _ => (.err 500, s)
  | .ok db =>
    (.ok 204 (),
      { db := db
        cache := redisDel (DeleteCache s.cache (workoutSessionCacheKey id))
          "workout_sessions:list:*" })

/-! Programs handlers (the programs handler file). None of them touches
the Cache Layer. -/

def convertProgramToResponse (p : Programs) : ProgramResponse :=
  { id := p.id
    name := p.name.asString
    description := some p.description
    userId := p.user_id
    durationWeeks := some p.duration_weeks
    difficulty := p.difficulty.asStringOpt
    isActive := p.is_active
    createdAt := p.created_at
    updatedAt := p.updated_at }

/-- convertRequestToProgram: optional fields fall back to Go zero values;
Difficulty is stored as a dynamic value (nil when absent). -/
def convertRequestToProgram (req : CreateProgramRequest) (userID newId : String) (now : Nat) :
    Programs :=
  { id := newId
    name := .str req.name
    description := updIf "" req.description
    user_id := userID
    duration_weeks := updIf 0 req.durationWeeks
    difficulty := match req.difficulty with | some v => .str v | none => .nil
    is_active := true
    created_at := now
    updated_at := now }

/-- createProgram handler: insert only; the user id is a placeholder and
no cache operation is performed. -/
def createProgram (s : SState) (req : CreateProgramRequest) (newId : String) (now : Nat) :
    HRes ProgramResponse × SState :=
  let userID := "placeholder-user-id"
  let program := convertRequestToProgram req userID newId now
  match dbCreateProgram s.db program with
  | .error _ => (.err 500, s)
  | .ok (created, db) =>
    (.ok 201 (convertProgramToResponse created), { s with db := db })

/-- getProgram handler: reads the record store directly; no cache
lookup, no cache write. -/
def getProgram (s : SState) (id : String) : HRes ProgramResponse × SState :=
  match dbGetProgramByID s.db id with
  | .error _ => (.err 404, s)
  | .ok program => (.ok 200 (convertProgramToResponse program), s)

def listPrograms (s : SState) (limit offset : Int) : HRes (List ProgramResponse) × SState :=
  match dbListPrograms s.db limit offset with
  | .error _ => (.err 500, s)
  | .ok programs => (.ok 200 (programs.map convertProgramToResponse), s)

def updateProgram (s : SState) (id : String) (req : UpdateProgramRequest) (now : Nat) :
    HRes ProgramResponse × SState :=
  match dbGetProgramByID s.db id with
  | .error _ => (.err 404, s)
  | .ok existingProgram =>
    let existingProgram :=
      { existingProgram with
          name := updStr existingProgram.name req.name
          description := updIf existingProgram.description req.description
          duration_weeks := updIf existingProgram.duration_weeks req.durationWeeks
          difficulty := updStr existingProgram.difficulty req.difficulty
          is_active := updIf existingProgram.is_active req.isActive
          updated_at := now }
    match dbUpdateProgram s.db existingProgram with
    | .error _ => (.err 500, s)
    | .ok (updated, db) =>
      (.ok 200 (convertProgramToResponse updated), { s with db := db })

def deleteProgram (s : SState) (id : String) : HRes Unit × SState :=
  match dbDeleteProgram s.db id with
  | .error _ => (.err 500, s)
  | .ok db => (.ok 204 (), { s with db := db })

/-! The operation alphabet: every handler of the API, with its request
data, as a single step type. runOp projects the successor state. -/

inductive Op where
  | opCreateUser (req : CreateUserRequest) (now : Nat) (newId hash : String)
  | opGetUser (id : String)
  | opListUsers (limit offset : Int)
  | opUpdateUser (id : String) (req : UpdateUserRequest) (now : Nat)
  | opDeleteUser (id : String)
  | opCreateWorkout (req : CreateWorkoutRequest) (userID newId : String)
  | opGetWorkout (id : String)
  | opListWorkouts (limit offset : Int)
  | opUpdateWorkout (id : String) (req : UpdateWorkoutRequest) (now : Nat)
  | opDeleteWorkout (id : String)
  | opCreateExercise (req : CreateExerciseRequest) (now : Nat) (newId : String)
  | opGetExercise (id : String)
  | opListExercises (limit offset : Int)
  | opUpdateExercise (id : String) (req : UpdateExerciseRequest) (now : Nat)
  | opDeleteExercise (id : String)
  | opCreateWorkoutExercise (req : CreateWorkoutExerciseRequest) (now : Nat) (newId : String)
  | opGetWorkoutExercise (id : String)
  | opListWorkoutExercises (limit offset : Int)
  | opUpdateWorkoutExercise (id : String) (req : UpdateWorkoutExerciseRequest)
  | opDeleteWorkoutExercise (id : String)
  | opCreateWorkoutSession (req : CreateWorkoutSessionRequest) (userID : String)
      (now : Nat) (newId : String)
  | opGetWorkoutSession (id : String)
  | opListWorkoutSessions (limit offset : Int)
  | opUpdateWorkoutSession (id : String) (req : UpdateWorkoutSessionRequest) (now : Nat)
  | opDeleteWorkoutSession (id : String)
  | opCreateProgram (req : CreateProgramRequest) (newId : String) (now : Nat)
  | opGetProgram (id : String)
  | opListPrograms (limit offset : Int)
  | opUpdateProgram (id : String) (req : UpdateProgramRequest) (now : Nat)
  | opDeleteProgram (id : String)

def runOp (s : SState) : Op → SState
  | .opCreateUser req now newId hash => (createUser s req now newId hash).2
  | .opGetUser id => (getUser s id).2
  | .opListUsers limit offset => (listUsers s limit offset).2
  | .opUpdateUser id req now => (updateUser s id req now).2
  | .opDeleteUser id => (deleteUser s id).2
  | .opCreateWorkout req userID newId => (createWorkout s req userID newId).2
  | .opGetWorkout id => (getWorkout s id).2
  | .opListWorkouts limit offset => (listWorkouts s limit offset).2
  | .opUpdateWorkout id req now => (updateWorkout s id req now).2
  | .opDeleteWorkout id => (deleteWorkout s id).2
  | .opCreateExercise req now newId => (createExercise s req now newId).2
  | .opGetExercise id => (getExercise s id).2
  | .opListExercises limit offset => (listExercises s limit offset).2
  | .opUpdateExercise id req now => (updateExercise s id req now).2
  | .opDeleteExercise id => (deleteExercise s id).2
  | .opCreateWorkoutExercise req now newId => (createWorkoutExercise s req now newId).2
  | .opGetWorkoutExercise id => (getWorkoutExercise s id).2
  | .opListWorkoutExercises limit offset => (listWorkoutExercises s limit offset).2
  | .opUpdateWorkoutExercise id req => (updateWorkoutExercise s id req).2
  | .opDeleteWorkoutExercise id => (deleteWorkoutExercise s id).2
  | .opCreateWorkoutSession req userID now newId =>
      (createWorkoutSession s req userID now newId).2
  | .opGetWorkoutSession id => (getWorkoutSession s id).2
  | .opListWorkoutSessions limit offset => (listWorkoutSessions s limit offset).2
  | .opUpdateWorkoutSession id req now => (updateWorkoutSession s id req now).2
  | .opDeleteWorkoutSession id => (deleteWorkoutSession s id).2
  | .opCreateProgram req newId now => (createProgram s req newId now).2
  | .opGetProgram id => (getProgram s id).2
  | .opListPrograms limit offset => (listPrograms s limit offset).2
  | .opUpdateProgram id req now => (updateProgram s id req now).2
  | .opDeleteProgram id => (deleteProgram s id).2

/-! Helper lemmas shared by the claim theorems. -/

/-- The resource-name component of a cache key: the characters before the
first colon. -/
def keyResource (s : String) : String :=
  String.mk (s.data.takeWhile (fun c => c ≠ ':'))

theorem key_ne_of_res {s t : String} (h : keyResource s ≠ keyResource t) : s ≠ t :=
  fun e => h (congrArg keyResource e)

theorem kr_user (id : String) : keyResource (userCacheKey id) = "user" := by
  simp [keyResource, userCacheKey, String.data_append]

theorem kr_users_list (l o : Int) : keyResource (usersListCacheKey l o) = "users" := by
  simp [keyResource, usersListCacheKey, String.data_append]

theorem kr_workout (id : String) : keyResource (workoutCacheKey id) = "workout" := by
  simp [keyResource, workoutCacheKey, String.data_append]

theorem kr_workouts_list (l o : Int) : keyResource (workoutsListCacheKey l o) = "workouts" := by
  simp [keyResource, workoutsListCacheKey, String.data_append]

theorem kr_exercise (id : String) : keyResource (exerciseCacheKey id) = "exercise" := by
  simp [keyResource, exerciseCacheKey, String.data_append]

theorem kr_exercises_list (l o : Int) :
    keyResource (exercisesListCacheKey l o) = "exercises" := by
  simp [keyResource, exercisesListCacheKey, String.data_append]

theorem kr_workout_exercise (id : String) :
    keyResource (workoutExerciseCacheKey id) = "workout_exercise" := by
  simp [keyResource, workoutExerciseCacheKey, String.data_append]

theorem kr_workout_exercises_list (l o : Int) :
    keyResource (workoutExercisesListCacheKey l o) = "workout_exercises" := by
  simp [keyResource, workoutExercisesListCacheKey, String.data_append]

theorem kr_workout_session (id : String) :
    keyResource (workoutSessionCacheKey id) = "workout_session" := by
  simp [keyResource, workoutSessionCacheKey, String.data_append]

theorem kr_workout_sessions_list (l o : Int) :
    keyResource (workoutSessionsListCacheKey l o) = "workout_sessions" := by
  simp [keyResource, workoutSessionsListCacheKey, String.data_append]

theorem find?_map_if {α : Type} (p : α → Bool) (u : α) (hu : p u = true) :
    ∀ (l : List α), l.any p = true →
      (l.map (fun r => if p r then u else r)).find? p = some u := by
  intro l h
  induction l with
  | nil => simp at h
  | cons a l ih =>
    rw [List.map_cons]
    by_cases ha : p a = true
    · rw [if_pos ha, List.find?_cons_of_pos _ hu]
    · rw [if_neg ha, List.find?_cons_of_neg _ ha]
      rw [List.any_cons, Bool.or_eq_true] at h
      rcases h with h | h
      · exact absurd h ha
      · exact ih h

theorem find?_filter_neg {α : Type} (p : α → Bool) (l : List α) :
    (l.filter (fun r => !(p r))).find? p = none := by
  rw [List.find?_eq_none]
  intro x hx
  have := List.mem_filter.1 hx
  simp at this
  simp [this.2]

/-- A lookup after a single-key delete of the same key misses. -/
theorem GetCache_DeleteCache_self (c : CacheState) (k : String) :
    GetCache (DeleteCache c k) k = none := by
  unfold GetCache DeleteCache
  by_cases h : c.up
  · simp only [h, if_true]
    have : (c.entries.filter (fun e => !(e.1 == k))).find? (fun e => e.1 == k) = none :=
      find?_filter_neg _ _
    simp [this]
  · simp [h]

/-- A single-key delete of a different key does not affect a lookup. -/
theorem GetCache_DeleteCache_ne (c : CacheState) (k k' : String) (h : k ≠ k') :
    GetCache (DeleteCache c k') k = GetCache c k := by
  unfold GetCache DeleteCache
  by_cases hup : c.up
  · simp only [hup, if_true]
    congr 1
    induction c.entries with
    | nil => rfl
    | cons e l ih =>
      rw [List.filter_cons]
      by_cases he : e.1 = k'
      · have h2 : (e.1 == k) = false := by
          rw [he]
          exact beq_false_of_ne (Ne.symm h)
        rw [if_neg (by simp [he]), ih, List.find?_cons, h2]
      · rw [if_pos (by simp [he]), List.find?_cons, List.find?_cons]
        cases hk : (e.1 == k) <;> simp [ih]
  · simp [hup]

/-- C8. Cache key derivation is deterministic (equal inputs give equal key
strings) and collision-free: across the cached resource kinds and between
the point-key family and the list-key family, no two distinct key
functions can ever produce the same string, whatever the ids, limits and
offsets. (Program defines no cache key helpers, so no key involving the
sixth resource kind exists at all.) -/
theorem C8_cache_key_scheme :
    (∀ a b : String, a = b →
      userCacheKey a = userCacheKey b ∧ workoutCacheKey a = workoutCacheKey b ∧
      exerciseCacheKey a = exerciseCacheKey b ∧
      workoutExerciseCacheKey a = workoutExerciseCacheKey b ∧
      workoutSessionCacheKey a = workoutSessionCacheKey b) ∧
    (∀ l o l' o' : Int, l = l' → o = o' →
      usersListCacheKey l o = usersListCacheKey l' o' ∧
      workoutsListCacheKey l o = workoutsListCacheKey l' o' ∧
      exercisesListCacheKey l o = exercisesListCacheKey l' o' ∧
      workoutExercisesListCacheKey l o = workoutExercisesListCacheKey l' o' ∧
      workoutSessionsListCacheKey l o = workoutSessionsListCacheKey l' o') ∧
    (∀ a b : String,
      userCacheKey a ≠ workoutCacheKey b ∧
      userCacheKey a ≠ exerciseCacheKey b ∧
      userCacheKey a ≠ workoutExerciseCacheKey b ∧
      userCacheKey a ≠ workoutSessionCacheKey b ∧
      workoutCacheKey a ≠ exerciseCacheKey b ∧
      workoutCacheKey a ≠ workoutExerciseCacheKey b ∧
      workoutCacheKey a ≠ workoutSessionCacheKey b ∧
      exerciseCacheKey a ≠ workoutExerciseCacheKey b ∧
      exerciseCacheKey a ≠ workoutSessionCacheKey b ∧
      workoutExerciseCacheKey a ≠ workoutSessionCacheKey b) ∧
    (∀ l o l' o' : Int,
      usersListCacheKey l o ≠ workoutsListCacheKey l' o' ∧
      usersListCacheKey l o ≠ exercisesListCacheKey l' o' ∧
      usersListCacheKey l o ≠ workoutExercisesListCacheKey l' o' ∧
      usersListCacheKey l o ≠ workoutSessionsListCacheKey l' o' ∧
      workoutsListCacheKey l o ≠ exercisesListCacheKey l' o' ∧
      workoutsListCacheKey l o ≠ workoutExercisesListCacheKey l' o' ∧
      workoutsListCacheKey l o ≠ workoutSessionsListCacheKey l' o' ∧
      exercisesListCacheKey l o ≠ workoutExercisesListCacheKey l' o' ∧
      exercisesListCacheKey l o ≠ workoutSessionsListCacheKey l' o' ∧
      workoutExercisesListCacheKey l o ≠ workoutSessionsListCacheKey l' o') ∧
    (∀ (a : String) (l o : Int),
      userCacheKey a ≠ usersListCacheKey l o ∧
      userCacheKey a ≠ workoutsListCacheKey l o ∧
      userCacheKey a ≠ exercisesListCacheKey l o ∧
      userCacheKey a ≠ workoutExercisesListCacheKey l o ∧
      userCacheKey a ≠ workoutSessionsListCacheKey l o ∧
      workoutCacheKey a ≠ usersListCacheKey l o ∧
      workoutCacheKey a ≠ workoutsListCacheKey l o ∧
      workoutCacheKey a ≠ exercisesListCacheKey l o ∧
      workoutCacheKey a ≠ workoutExercisesListCacheKey l o ∧
      workoutCacheKey a ≠ workoutSessionsListCacheKey l o ∧
      exerciseCacheKey a ≠ usersListCacheKey l o ∧
      exerciseCacheKey a ≠ workoutsListCacheKey l o ∧
      exerciseCacheKey a ≠ exercisesListCacheKey l o ∧
      exerciseCacheKey a ≠ workoutExercisesListCacheKey l o ∧
      exerciseCacheKey a ≠ workoutSessionsListCacheKey l o ∧
      workoutExerciseCacheKey a ≠ usersListCacheKey l o ∧
      workoutExerciseCacheKey a ≠ workoutsListCacheKey l o ∧
      workoutExerciseCacheKey a ≠ exercisesListCacheKey l o ∧
      workoutExerciseCacheKey a ≠ workoutExercisesListCacheKey l o ∧
      workoutExerciseCacheKey a ≠ workoutSessionsListCacheKey l o ∧
      workoutSessionCacheKey a ≠ usersListCacheKey l o ∧
      workoutSessionCacheKey a ≠ workoutsListCacheKey l o ∧
      workoutSessionCacheKey a ≠ exercisesListCacheKey l o ∧
      workoutSessionCacheKey a ≠ workoutExercisesListCacheKey l o ∧
      workoutSessionCacheKey a ≠ workoutSessionsListCacheKey l o) := by
  refine ⟨?_, ?_, ?_, ?_, ?_⟩
  · intro a b h
    subst h
    exact ⟨rfl, rfl, rfl, rfl, rfl⟩
  · intro l o l' o' hl ho
    subst hl
    subst ho
    exact ⟨rfl, rfl, rfl, rfl, rfl⟩
  · intro a b
    refine ⟨?_, ?_, ?_, ?_, ?_, ?_, ?_, ?_, ?_, ?_⟩ <;>
      (apply key_ne_of_res
       simp only [kr_user, kr_users_list, kr_workout, kr_workouts_list, kr_exercise,
         kr_exercises_list, kr_workout_exercise, kr_workout_exercises_list,
         kr_workout_session, kr_workout_sessions_list]
       decide)
  · intro l o l' o'
    refine ⟨?_, ?_, ?_, ?_, ?_, ?_, ?_, ?_, ?_, ?_⟩ <;>
      (apply key_ne_of_res
       simp only [kr_user, kr_users_list, kr_workout, kr_workouts_list, kr_exercise,
         kr_exercises_list, kr_workout_exercise, kr_workout_exercises_list,
         kr_workout_session, kr_workout_sessions_list]
       decide)
  · intro a l o
    refine ⟨?_, ?_, ?_, ?_, ?_, ?_, ?_, ?_, ?_, ?_, ?_, ?_, ?_, ?_, ?_, ?_, ?_, ?_, ?_,
      ?_, ?_, ?_, ?_, ?_, ?_⟩ <;>
      (apply key_ne_of_res
       simp only [kr_user, kr_users_list, kr_workout, kr_workouts_list, kr_exercise,
         kr_exercises_list, kr_workout_exercise, kr_workout_exercises_list,
         kr_workout_session, kr_workout_sessions_list]
       decide)

/-- C8 witness: the determinism conjuncts applied at a concrete repeated
input and one concrete cross-family non-collision. -/
theorem C8_cache_key_scheme_witness :
    userCacheKey "42" = userCacheKey "42" ∧
    usersListCacheKey 10 0 = usersListCacheKey 10 0 ∧
    userCacheKey "s:list:1:2" ≠ usersListCacheKey 1 2 :=
  ⟨(C8_cache_key_scheme.1 "42" "42" rfl).1,
   (C8_cache_key_scheme.2.1 10 0 10 0 rfl rfl).1,
   (C8_cache_key_scheme.2.2.2.2 "s:list:1:2" 1 2).1⟩

/-- C9. For every HTTP list request, the pagination parameters produced by
getPaginationParams satisfy 1 ≤ limit ≤ 100 and offset ≥ 0; an absent
limit parameter yields the default 10 and an absent offset yields 0; a
limit that parses out of range (or fails to parse, which Atoi maps to 0)
is forced back into the interval as 10, and a negative offset is forced
to 0. -/
theorem C9_pagination_clamping :
    ∀ limitQ offsetQ : Option String,
      1 ≤ (getPaginationParams limitQ offsetQ).1 ∧
      (getPaginationParams limitQ offsetQ).1 ≤ 100 ∧
      0 ≤ (getPaginationParams limitQ offsetQ).2 ∧
      (limitQ = none → (getPaginationParams limitQ offsetQ).1 = 10) ∧
      (offsetQ = none → (getPaginationParams limitQ offsetQ).2 = 0) ∧
      (∀ u, limitQ = some u → goAtoi u ≤ 0 ∨ 100 < goAtoi u →
        (getPaginationParams limitQ offsetQ).1 = 10) ∧
      (∀ u, offsetQ = some u → goAtoi u < 0 →
        (getPaginationParams limitQ offsetQ).2 = 0) := by
  intro limitQ offsetQ
  have heq : getPaginationParams limitQ offsetQ =
      ((if goAtoi (limitQ.getD "10") ≤ 0 ∨ goAtoi (limitQ.getD "10") > 100 then 10
        else goAtoi (limitQ.getD "10")),
       (if goAtoi (offsetQ.getD "0") < 0 then 0 else goAtoi (offsetQ.getD "0"))) := rfl
  rw [heq]
  refine ⟨?_, ?_, ?_, ?_, ?_, ?_, ?_⟩
  · dsimp only
    split <;> omega
  · dsimp only
    split <;> omega
  · dsimp only
    split <;> omega
  · intro h
    subst h
    dsimp only [Option.getD_none]
    decide
  · intro h
    subst h
    dsimp only [Option.getD_none]
    decide
  · intro u hu hr
    subst hu
    dsimp only [Option.getD_some]
    split
    · rfl
    · omega
  · intro u hu hr
    subst hu
    dsimp only [Option.getD_some]
    split
    · rfl
    · omega

/-- C9 witness: an out-of-range limit and a negative offset are both
forced back to the defaults. -/
theorem C9_pagination_clamping_witness :
    (getPaginationParams (some "500") (some "-3")).1 = 10 ∧
    (getPaginationParams (some "500") (some "-3")).2 = 0 :=
  ⟨(C9_pagination_clamping (some "500") (some "-3")).2.2.2.2.2.1 "500" rfl (by decide),
   (C9_pagination_clamping (some "500") (some "-3")).2.2.2.2.2.2 "-3" rfl (by decide)⟩

/-- Response of a successful deleteUser. -/
theorem deleteUser_res (s : SState) (id : String) (h : id ≠ "") (hup : s.db.up = true) :
    (deleteUser s id).1 = .ok 204 () := by
  simp [deleteUser, dbDeleteUser, h, hup]

/-- Stored users after deleteUser. -/
theorem deleteUser_db_users (s : SState) (id : String) (h : id ≠ "") (hup : s.db.up = true) :
    ((deleteUser s id).2).db.users = s.db.users.filter (fun r => !(r.id == id)) := by
  simp [deleteUser, dbDeleteUser, h, hup]

/-- deleteUser keeps the store reachable. -/
theorem deleteUser_db_up (s : SState) (id : String) (h : id ≠ "") (hup : s.db.up = true) :
    ((deleteUser s id).2).db.up = true := by
  simp [deleteUser, dbDeleteUser, h, hup]

/-- Response of a successful deleteWorkout. -/
theorem deleteWorkout_res (s : SState) (id : String) (h : id ≠ "") (hup : s.db.up = true) :
    (deleteWorkout s id).1 = .ok 204 () := by
  simp [deleteWorkout, dbDeleteWorkout, h, hup]

/-- Stored workouts after deleteWorkout. -/
theorem deleteWorkout_db_workouts (s : SState) (id : String) (h : id ≠ "")
    (hup : s.db.up = true) :
    ((deleteWorkout s id).2).db.workouts = s.db.workouts.filter (fun r => !(r.id == id)) := by
  simp [deleteWorkout, dbDeleteWorkout, h, hup]

/-- deleteWorkout keeps the store reachable. -/
theorem deleteWorkout_db_up (s : SState) (id : String) (h : id ≠ "") (hup : s.db.up = true) :
    ((deleteWorkout s id).2).db.up = true := by
  simp [deleteWorkout, dbDeleteWorkout, h, hup]

/-- C10. A delete reports 204 No Content whenever the record store is
reachable, whether or not a row with the id exists (the store-level DELETE
never inspects the affected-row count), so delete never yields NotFound;
and repeating the same delete leaves the stored rows unchanged and still
reports 204. Shown for the deleteUser and deleteWorkout handlers. -/
theorem C10_delete_idempotent_success :
    (∀ (s : SState) (id : String), id ≠ "" → s.db.up = true →
      (deleteUser s id).1 = .ok 204 () ∧
      (deleteUser (deleteUser s id).2 id).1 = .ok 204 () ∧
      ((deleteUser (deleteUser s id).2 id).2).db.users = ((deleteUser s id).2).db.users) ∧
    (∀ (s : SState) (id : String), id ≠ "" → s.db.up = true →
      (deleteWorkout s id).1 = .ok 204 () ∧
      (deleteWorkout (deleteWorkout s id).2 id).1 = .ok 204 () ∧
      ((deleteWorkout (deleteWorkout s id).2 id).2).db.workouts =
        ((deleteWorkout s id).2).db.workouts) := by
  constructor
  · intro s id h hup
    have hup' := deleteUser_db_up s id h hup
    refine ⟨deleteUser_res s id h hup, deleteUser_res _ id h hup', ?_⟩
    rw [deleteUser_db_users _ id h hup', deleteUser_db_users s id h hup,
      List.filter_filter]
    simp
  · intro s id h hup
    have hup' := deleteWorkout_db_up s id h hup
    refine ⟨deleteWorkout_res s id h hup, deleteWorkout_res _ id h hup', ?_⟩
    rw [deleteWorkout_db_workouts _ id h hup', deleteWorkout_db_workouts s id h hup,
      List.filter_filter]
    simp

/-- C10 witness: deleting a nonexistent user id from an empty reachable
store succeeds with 204, twice in a row. -/
theorem C10_delete_idempotent_success_witness :
    (deleteUser
        { db := { up := true, users := [], workouts := [], exercises := [],
                  workout_exercises := [], workout_sessions := [], programs := [] }
          cache := { up := true, entries := [] } } "missing-id").1 = .ok 204 () :=
  (C10_delete_idempotent_success.1
    { db := { up := true, users := [], workouts := [], exercises := [],
              workout_exercises := [], workout_sessions := [], programs := [] }
      cache := { up := true, entries := [] } } "missing-id" (by decide) rfl).1

/-- A record store that is unreachable (connection/timeout failure), and a
cache that is down as well, for the error-translation scenarios. -/
def sStoreDown : SState :=
  { db := { up := false, users := [], workouts := [], exercises := [],
            workout_exercises := [], workout_sessions := [], programs := [] }
    cache := { up := false, entries := [] } }

/-- C7 counterexample: the claim says a Record Store connection/timeout
failure on a point read is surfaced as HTTP 500 and never as NotFound,
but the getWorkout and getUser handlers map every store error — including
an unreachable store — to 404 Not Found. -/
theorem C7_store_failure_surfaced_as_404 :
    (getWorkout sStoreDown "w1").1 = .err 404 ∧
    (getUser sStoreDown "u1").1 = .err 404 := by
  constructor <;> decide

/-- C7 amended: point reads return 404 both for a missing id and for a
record-store failure (the handlers collapse every getByID error to
NotFound); store failures on list reads, deletes and creates are surfaced
as 500. -/
theorem C7_error_translation :
    (∀ (db : Db) (c : CacheState) (id : String), db.up = false → c.up = false → id ≠ "" →
      (getUser ⟨db, c⟩ id).1 = .err 404 ∧
      (getWorkout ⟨db, c⟩ id).1 = .err 404 ∧
      (getExercise ⟨db, c⟩ id).1 = .err 404 ∧
      (getWorkoutExercise ⟨db, c⟩ id).1 = .err 404 ∧
      (getWorkoutSession ⟨db, c⟩ id).1 = .err 404 ∧
      (getProgram ⟨db, c⟩ id).1 = .err 404) ∧
    (∀ (db : Db) (c : CacheState) (l o : Int), db.up = false → c.up = false →
      (listUsers ⟨db, c⟩ l o).1 = .err 500 ∧
      (listWorkouts ⟨db, c⟩ l o).1 = .err 500) ∧
    (∀ (db : Db) (c : CacheState) (id : String), db.up = false → id ≠ "" →
      (deleteUser ⟨db, c⟩ id).1 = .err 500 ∧
      (deleteWorkout ⟨db, c⟩ id).1 = .err 500) ∧
    (∀ (db : Db) (c : CacheState) (req : CreateUserRequest) (now : Nat) (newId hash : String),
      db.up = false → (createUser ⟨db, c⟩ req now newId hash).1 = .err 500) ∧
    (∀ (db : Db) (c : CacheState) (id : String), db.up = true → c.up = false → id ≠ "" →
      db.users.find? (fun u => u.id == id) = none →
      (getUser ⟨db, c⟩ id).1 = .err 404) := by
  refine ⟨?_, ?_, ?_, ?_, ?_⟩
  · intro db c id hdb hc hid
    refine ⟨?_, ?_, ?_, ?_, ?_, ?_⟩ <;>
      simp [getUser, getWorkout, getExercise, getWorkoutExercise, getWorkoutSession,
        getProgram, GetCache, dbGetUserByID, dbGetWorkoutByID, dbGetExerciseByID,
        dbGetWorkoutExerciseByID, dbGetWorkoutSessionByID, dbGetProgramByID, hdb, hc, hid]
  · intro db c l o hdb hc
    constructor <;>
      simp [listUsers, listWorkouts, GetCache, dbListUsers, dbListWorkouts, hdb, hc]
  · intro db c id hdb hid
    constructor <;>
      simp [deleteUser, deleteWorkout, dbDeleteUser, dbDeleteWorkout, hdb, hid]
  · intro db c req now newId hash hdb
    simp [createUser, dbCreateUser, hdb]
  · intro db c id hdb hc hid hfind
    simp [getUser, GetCache, dbGetUserByID, hdb, hc, hid, hfind]

/-- C7 amended witness: the store-down point read and list read at
concrete inputs. -/
theorem C7_error_translation_witness :
    (getUser sStoreDown "u1").1 = .err 404 ∧
    (listUsers sStoreDown 10 0).1 = .err 500 :=
  ⟨(C7_error_translation.1 sStoreDown.db sStoreDown.cache "u1" rfl rfl (by decide)).1,
   (C7_error_translation.2.1 sStoreDown.db sStoreDown.cache 10 0 rfl rfl).1⟩

/-! Destructors for successful point lookups in the record store. -/

theorem dbGetUser_ok (db : Db) (id : String) (u : Users)
    (h : dbGetUserByID db id = .ok u) :
    db.up = true ∧ db.users.find? (fun r => r.id == id) = some u := by
  unfold dbGetUserByID at h
  by_cases hup : db.up = true
  · refine ⟨hup, ?_⟩
    rw [if_pos hup] at h
    cases hf : db.users.find? (fun r => r.id == id) with
    | none => rw [hf] at h; exact absurd h (by simp)
    | some v => rw [hf] at h; simp at h; rw [h]
  · rw [if_neg hup] at h
    exact absurd h (by simp)

theorem dbGetWorkout_ok (db : Db) (id : String) (w : Workouts)
    (h : dbGetWorkoutByID db id = .ok w) :
    db.up = true ∧ db.workouts.find? (fun r => r.id == id) = some w := by
  unfold dbGetWorkoutByID at h
  by_cases hup : db.up = true
  · refine ⟨hup, ?_⟩
    rw [if_pos hup] at h
    cases hf : db.workouts.find? (fun r => r.id == id) with
    | none => rw [hf] at h; exact absurd h (by simp)
    | some v => rw [hf] at h; simp at h; rw [h]
  · rw [if_neg hup] at h
    exact absurd h (by simp)

theorem dbGetExercise_ok (db : Db) (id : String) (e : Exercises)
    (h : dbGetExerciseByID db id = .ok e) :
    db.up = true ∧ db.exercises.find? (fun r => r.id == id) = some e := by
  unfold dbGetExerciseByID at h
  by_cases hup : db.up = true
  · refine ⟨hup, ?_⟩
    rw [if_pos hup] at h
    cases hf : db.exercises.find? (fun r => r.id == id) with
    | none => rw [hf] at h; exact absurd h (by simp)
    | some v => rw [hf] at h; simp at h; rw [h]
  · rw [if_neg hup] at h
    exact absurd h (by simp)

theorem dbGetWorkoutExercise_ok (db : Db) (id : String) (x : Workout_exercises)
    (h : dbGetWorkoutExerciseByID db id = .ok x) :
    db.up = true ∧ db.workout_exercises.find? (fun r => r.id == id) = some x := by
  unfold dbGetWorkoutExerciseByID at h
  by_cases hup : db.up = true
  · refine ⟨hup, ?_⟩
    rw [if_pos hup] at h
    cases hf : db.workout_exercises.find? (fun r => r.id == id) with
    | none => rw [hf] at h; exact absurd h (by simp)
    | some v => rw [hf] at h; simp at h; rw [h]
  · rw [if_neg hup] at h
    exact absurd h (by simp)

theorem dbGetWorkoutSession_ok (db : Db) (id : String) (x : Workout_sessions)
    (h : dbGetWorkoutSessionByID db id = .ok x) :
    db.up = true ∧ db.workout_sessions.find? (fun r => r.id == id) = some x := by
  unfold dbGetWorkoutSessionByID at h
  by_cases hup : db.up = true
  · refine ⟨hup, ?_⟩
    rw [if_pos hup] at h
    cases hf : db.workout_sessions.find? (fun r => r.id == id) with
    | none => rw [hf] at h; exact absurd h (by simp)
    | some v => rw [hf] at h; simp at h; rw [h]
  · rw [if_neg hup] at h
    exact absurd h (by simp)

/-! C2: the Program resource and the cache. -/

/-- A reachable store holding one program, with a reachable cache that
already holds a program list-family entry. -/
def sProgramDemo : SState :=
  { db := { up := true, users := [], workouts := [], exercises := [],
            workout_exercises := [], workout_sessions := [],
            programs := [{ id := "p1", name := .str "Base", description := "", user_id := "u1",
                           duration_weeks := 8, difficulty := .str "beginner", is_active := true,
                           created_at := 3, updated_at := 3 }] }
    cache := { up := true, entries := [("programs:list:10:0", .workoutList [])] } }

def demoCreateProgramReq : CreateProgramRequest :=
  { name := "Hypertrophy", description := none, durationWeeks := some 6,
    difficulty := some "intermediate" }

/-- C2 counterexample: a successful getProgram does not populate the
cache (the state is returned unchanged even on a cache miss), and a
successful createProgram performs no invalidation — the preexisting
program list-family cache entry survives the create. This contradicts
the claim that Program implements the read-through/invalidate protocol. -/
theorem C2_program_skips_cache_cex :
    (getProgram sProgramDemo "p1").2 = sProgramDemo ∧
    (createProgram sProgramDemo demoCreateProgramReq "p2" 9).1 =
      .ok 201 (convertProgramToResponse
        (convertRequestToProgram demoCreateProgramReq "placeholder-user-id" "p2" 9)) ∧
    ((createProgram sProgramDemo demoCreateProgramReq "p2" 9).2).cache.entries =
      [("programs:list:10:0", .workoutList [])] := by
  refine ⟨?_, ?_, ?_⟩ <;> decide

/-- C2 amended: five of the six resource kinds implement the
read-through/invalidate protocol; the Program handlers bypass the Cache
Layer entirely — program reads go straight to the record store, leave the
state unchanged and are independent of the cache contents, and program
mutations leave the cache untouched. -/
theorem C2_program_direct_store_access :
    (∀ (s : SState) (id : String), (getProgram s id).2 = s) ∧
    (∀ (db : Db) (c c' : CacheState) (id : String),
      (getProgram ⟨db, c⟩ id).1 = (getProgram ⟨db, c'⟩ id).1) ∧
    (∀ (s : SState) (limit offset : Int), (listPrograms s limit offset).2 = s) ∧
    (∀ (db : Db) (c c' : CacheState) (l o : Int),
      (listPrograms ⟨db, c⟩ l o).1 = (listPrograms ⟨db, c'⟩ l o).1) ∧
    (∀ (s : SState) (req : CreateProgramRequest) (newId : String) (now : Nat),
      ((createProgram s req newId now).2).cache = s.cache) ∧
    (∀ (s : SState) (id : String) (req : UpdateProgramRequest) (now : Nat),
      ((updateProgram s id req now).2).cache = s.cache) ∧
    (∀ (s : SState) (id : String), ((deleteProgram s id).2).cache = s.cache) := by
  refine ⟨?_, ?_, ?_, ?_, ?_, ?_, ?_⟩
  · intro s id
    unfold getProgram
    cases hd : dbGetProgramByID s.db id <;> simp
  · intro db c c' id
    unfold getProgram
    cases hd : dbGetProgramByID db id <;> simp [hd]
  · intro s l o
    unfold listPrograms
    cases hd : dbListPrograms s.db l o <;> simp
  · intro db c c' l o
    unfold listPrograms
    cases hd : dbListPrograms db l o <;> simp [hd]
  · intro s req newId now
    unfold createProgram
    cases hd : dbCreateProgram s.db (convertRequestToProgram req "placeholder-user-id" newId now) <;>
      simp [hd]
  · intro s id req now
    unfold updateProgram
    cases hd : dbGetProgramByID s.db id with
    | error e => simp [hd]
    | ok p =>
      simp only [hd]
      cases hu : dbUpdateProgram s.db _ <;> simp [hu]
  · intro s id
    unfold deleteProgram
    cases hd : dbDeleteProgram s.db id <;> simp [hd]

/-! C5: partial-update semantics. -/

def demoWorkoutRow : Workouts :=
  { id := "w1", user_id := "u1", name := "Leg Day", description := "lower body",
    duration_minutes := 45, program_id := some "p1", created_at := 5, updated_at := 5 }

def sWorkoutDemo : SState :=
  { db := { up := true, users := [], workouts := [demoWorkoutRow], exercises := [],
            workout_exercises := [], workout_sessions := [], programs := [] }
    cache := { up := true, entries := [] } }

/-- An update request that provides only ProgramID. -/
def reqProgramOnly : UpdateWorkoutRequest :=
  { name := none, description := none, durationMinutes := none, programId := some "p2" }

/-- C5 counterexample: updating workout w1 with a request that provides
only ProgramID = "p2" succeeds, but the stored row keeps program_id =
"p1": the provided field is not applied, contradicting the claim that
every field carried by UpdateWorkoutRequest is applied when provided. -/
theorem C5_program_id_not_applied_cex :
    (updateWorkout sWorkoutDemo "w1" reqProgramOnly 9).1 =
      .ok 200 (workoutToResponse { demoWorkoutRow with updated_at := 9 }) ∧
    ((updateWorkout sWorkoutDemo "w1" reqProgramOnly 9).2).db.workouts =
      [{ demoWorkoutRow with updated_at := 9 }] ∧
    ((updateWorkout sWorkoutDemo "w1" reqProgramOnly 9).2).db.workouts.map
      (fun w => w.program_id) = [some "p1"] := by
  refine ⟨?_, ?_, ?_⟩ <;> decide

/-- C5 amended: update handlers follow patch semantics for exactly the
fields they read — each provided field among those replaces the prior
value, every omitted field keeps its prior value, and updated_at is
refreshed — but updateWorkout never reads the request's ProgramID, so the
stored program reference always keeps its prior value even when ProgramID
is provided. Stated field-by-field via the record updates for
updateWorkout (Name, Description, DurationMinutes) and updateUser (Email,
Username, FirstName, LastName). -/
theorem C5_partial_update_frame :
    (∀ (s : SState) (id : String) (req : UpdateWorkoutRequest) (now : Nat) (w : Workouts),
      id ≠ "" → dbGetWorkoutByID s.db id = .ok w →
      (updateWorkout s id req now).1 =
        .ok 200 (workoutToResponse
          { w with
              name := updIf w.name req.name
              description := updIf w.description req.description
              duration_minutes := updIf w.duration_minutes req.durationMinutes
              updated_at := now }) ∧
      ((updateWorkout s id req now).2).db.workouts =
        s.db.workouts.map (fun r =>
          if r.id == w.id then
            { w with
                name := updIf w.name req.name
                description := updIf w.description req.description
                duration_minutes := updIf w.duration_minutes req.durationMinutes
                updated_at := now }
          else r)) ∧
    (∀ (s : SState) (id : String) (req : UpdateUserRequest) (now : Nat) (u : Users),
      id ≠ "" → dbGetUserByID s.db id = .ok u →
      (updateUser s id req now).1 =
        .ok 200 (userToResponse
          { u with
              email := updStr u.email req.email
              username := updStr u.username req.username
              first_name := updStr u.first_name req.firstName
              last_name := updStr u.last_name req.lastName
              updated_at := now }) ∧
      ((updateUser s id req now).2).db.users =
        s.db.users.map (fun r =>
          if r.id == u.id then
            { u with
                email := updStr u.email req.email
                username := updStr u.username req.username
                first_name := updStr u.first_name req.firstName
                last_name := updStr u.last_name req.lastName
                updated_at := now }
          else r)) := by
  constructor
  · intro s id req now w hid hfind
    obtain ⟨hup, hfindw⟩ := dbGetWorkout_ok _ _ _ hfind
    have hmem : w ∈ s.db.workouts := List.mem_of_find?_eq_some hfindw
    have hany : s.db.workouts.any (fun r => r.id == w.id) = true :=
      List.any_eq_true.mpr ⟨w, hmem, by simp⟩
    constructor <;>
      simp [updateWorkout, hid, hfind, dbUpdateWorkout, hup, hany]
  · intro s id req now u hid hfind
    obtain ⟨hup, hfindu⟩ := dbGetUser_ok _ _ _ hfind
    have hmem : u ∈ s.db.users := List.mem_of_find?_eq_some hfindu
    have hany : s.db.users.any (fun r => r.id == u.id) = true :=
      List.any_eq_true.mpr ⟨u, hmem, by simp⟩
    constructor <;>
      simp [updateUser, hid, hfind, dbUpdateUser, hup, hany]

def demoUserRow : Users :=
  { id := "u1", email := .str "a@b.c", username := .str "alice",
    password_hash := .str "h0", first_name := .str "A", last_name := .str "B",
    created_at := 2, updated_at := 2 }

def sUserDemo : SState :=
  { db := { up := true, users := [demoUserRow], workouts := [demoWorkoutRow], exercises := [],
            workout_exercises := [], workout_sessions := [], programs := [] }
    cache := { up := true, entries := [] } }

/-- C5 amended witness: renaming workout w1 changes only name and
updated_at, and renaming user u1 changes only username and updated_at. -/
theorem C5_partial_update_frame_witness :
    ((updateWorkout sUserDemo "w1"
        { name := some "Leg Day v2", description := none, durationMinutes := none,
          programId := none } 9).2).db.workouts =
      [{ demoWorkoutRow with name := "Leg Day v2", updated_at := 9 }] ∧
    ((updateUser sUserDemo "u1"
        { email := none, username := some "alice2", firstName := none,
          lastName := none } 9).2).db.users =
      [{ demoUserRow with username := .str "alice2", updated_at := 9 }] := by
  constructor
  · rw [(C5_partial_update_frame.1 sUserDemo "w1"
      { name := some "Leg Day v2", description := none, durationMinutes := none,
        programId := none } 9 demoWorkoutRow (by decide) (by rfl)).2]
    decide
  · rw [(C5_partial_update_frame.2 sUserDemo "u1"
      { email := none, username := some "alice2", firstName := none,
        lastName := none } 9 demoUserRow (by decide) (by rfl)).2]
    decide

/-! Destructors for successful record-store updates and deletes. -/

theorem dbUpdateWorkout_ok (db : Db) (w u' : Workouts) (db' : Db)
    (h : dbUpdateWorkout db w = .ok (u', db')) :
    db.up = true ∧ u' = w ∧
    db' = { db with workouts := db.workouts.map (fun r => if r.id == w.id then w else r) } := by
  unfold dbUpdateWorkout at h
  by_cases hup : db.up = true
  · rw [if_pos hup] at h
    by_cases hany : db.workouts.any (fun r => r.id == w.id) = true
    · rw [if_pos hany] at h
      simp only [Except.ok.injEq, Prod.mk.injEq] at h
      exact ⟨hup, h.1.symm, h.2.symm⟩
    · rw [if_neg hany] at h
      exact absurd h (by simp)
  · rw [if_neg hup] at h
    exact absurd h (by simp)

theorem dbDeleteWorkout_ok (db : Db) (id : String) (db' : Db)
    (h : dbDeleteWorkout db id = .ok db') :
    db.up = true ∧ db' = { db with workouts := db.workouts.filter (fun r => !(r.id == id)) } := by
  unfold dbDeleteWorkout at h
  by_cases hup : db.up = true
  · rw [if_pos hup] at h
    simp only [Except.ok.injEq] at h
    exact ⟨hup, h.symm⟩
  · rw [if_neg hup] at h
    exact absurd h (by simp)

/-- workoutCacheKey never names a list-family key: the literal Del
argument of the workouts handlers differs from every point key. -/
theorem workoutCacheKey_ne_listDel (id : String) :
    workoutCacheKey id ≠ "workouts:list:*" := by
  apply key_ne_of_res
  rw [kr_workout]
  decide

/-- After a successful updateWorkout, a getWorkout of the same id
reads through to the store and returns exactly the updated entity. -/
theorem updateWorkout_then_get (s : SState) (id : String) (req : UpdateWorkoutRequest)
    (now : Nat) (b : WorkoutResponse) (s' : SState)
    (h : updateWorkout s id req now = (.ok 200 b, s')) :
    (getWorkout s' id).1 = .ok 200 b := by
  by_cases hid : id = ""
  · rw [updateWorkout, if_pos hid] at h
    exact absurd (congrArg Prod.fst h) (by simp)
  rw [updateWorkout, if_neg hid] at h
  cases hget : dbGetWorkoutByID s.db id with
  | error e =>
    rw [hget] at h
    exact absurd (congrArg Prod.fst h) (by simp)
  | ok w =>
    rw [hget] at h
    dsimp only at h
    obtain ⟨hup, hfindw⟩ := dbGetWorkout_ok _ _ _ hget
    have hwid : w.id = id := by
      have := List.find?_some hfindw
      simpa using this
    cases hupd : dbUpdateWorkout s.db
        { w with
            name := updIf w.name req.name
            description := updIf w.description req.description
            duration_minutes := updIf w.duration_minutes req.durationMinutes
            updated_at := now } with
    | error e =>
      rw [hupd] at h
      exact absurd (congrArg Prod.fst h) (by simp)
    | ok p =>
      obtain ⟨u2, db2⟩ := p
      obtain ⟨-, hu2, hdb2⟩ := dbUpdateWorkout_ok _ _ _ _ hupd
      rw [hupd] at h
      dsimp only at h
      rw [Prod.mk.injEq] at h
      obtain ⟨hb, hs'⟩ := h
      simp only [HRes.ok.injEq] at hb
      subst hs'
      have hmiss :
          GetCache (redisDel (DeleteCache s.cache (workoutCacheKey id)) "workouts:list:*")
            (workoutCacheKey id) = none := by
        rw [redisDel,
          GetCache_DeleteCache_ne _ _ _ (workoutCacheKey_ne_listDel id),
          GetCache_DeleteCache_self]
      rw [getWorkout, if_neg hid]
      dsimp only
      rw [hmiss]
      dsimp only
      have hmem : w ∈ s.db.workouts := List.mem_of_find?_eq_some hfindw
      have hany : s.db.workouts.any (fun r => r.id == w.id) = true :=
        List.any_eq_true.mpr ⟨w, hmem, by simp⟩
      have hfind2 :
          (s.db.workouts.map (fun r =>
              if r.id == w.id then
                { w with
                    name := updIf w.name req.name
                    description := updIf w.description req.description
                    duration_minutes := updIf w.duration_minutes req.durationMinutes
                    updated_at := now }
              else r)).find? (fun r => r.id == w.id) =
            some { w with
                name := updIf w.name req.name
                description := updIf w.description req.description
                duration_minutes := updIf w.duration_minutes req.durationMinutes
                updated_at := now } := by
        apply find?_map_if _ _ (by simp) _ hany
      rw [dbGetWorkoutByID, hdb2]
      dsimp only
      rw [if_pos hup, ← hwid, hfind2]
      dsimp only
      rw [← hb.2, hu2]

/-- After a successful deleteWorkout, a getWorkout of the same id misses
the cache and the store and yields NotFound, whatever the prior cache
contents. -/
theorem deleteWorkout_then_get (s : SState) (id : String) (s' : SState)
    (h : deleteWorkout s id = (.ok 204 (), s')) :
    (getWorkout s' id).1 = .err 404 := by
  by_cases hid : id = ""
  · rw [deleteWorkout, if_pos hid] at h
    exact absurd (congrArg Prod.fst h) (by simp)
  rw [deleteWorkout, if_neg hid] at h
  cases hdel : dbDeleteWorkout s.db id with
  | error e =>
    rw [hdel] at h
    exact absurd (congrArg Prod.fst h) (by simp)
  | ok db' =>
    obtain ⟨hup, hdb'⟩ := dbDeleteWorkout_ok _ _ _ hdel
    rw [hdel] at h
    dsimp only at h
    rw [Prod.mk.injEq] at h
    obtain ⟨-, hs'⟩ := h
    subst hs'
    have hmiss :
        GetCache (redisDel (DeleteCache s.cache (workoutCacheKey id)) "workouts:list:*")
          (workoutCacheKey id) = none := by
      rw [redisDel,
        GetCache_DeleteCache_ne _ _ _ (workoutCacheKey_ne_listDel id),
        GetCache_DeleteCache_self]
    rw [getWorkout, if_neg hid]
    dsimp only
    rw [hmiss]
    dsimp only
    rw [dbGetWorkoutByID, hdb']
    dsimp only
    rw [if_pos hup, find?_filter_neg]

theorem dbUpdateUser_ok (db : Db) (w u' : Users) (db' : Db)
    (h : dbUpdateUser db w = .ok (u', db')) :
    db.up = true ∧ u' = w ∧
    db' = { db with users := db.users.map (fun r => if r.id == w.id then w else r) } := by
  unfold dbUpdateUser at h
  by_cases hup : db.up = true
  · rw [if_pos hup] at h
    by_cases hany : db.users.any (fun r => r.id == w.id) = true
    · rw [if_pos hany] at h
      simp only [Except.ok.injEq, Prod.mk.injEq] at h
      exact ⟨hup, h.1.symm, h.2.symm⟩
    · rw [if_neg hany] at h
      exact absurd h (by simp)
  · rw [if_neg hup] at h
    exact absurd h (by simp)

theorem dbDeleteUser_ok (db : Db) (id : String) (db' : Db)
    (h : dbDeleteUser db id = .ok db') :
    db.up = true ∧
    db' = { db with users := db.users.filter (fun r => !(r.id == id)) } := by
  unfold dbDeleteUser at h
  by_cases hup : db.up = true
  · rw [if_pos hup] at h
    simp only [Except.ok.injEq] at h
    exact ⟨hup, h.symm⟩
  · rw [if_neg hup] at h
    exact absurd h (by simp)

/-- The literal Del argument of the handlers differs from every point key. -/
theorem userCacheKey_ne_listDel (id : String) :
    userCacheKey id ≠ "users:list:*" := by
  apply key_ne_of_res
  rw [kr_user]
  decide

/-- After a successful updateUser, a getUser of the same id reads
through to the store and returns exactly the updated entity. -/
theorem updateUser_then_get (s : SState) (id : String) (req : UpdateUserRequest)
    (now : Nat)
    (b : UserResponse) (s' : SState)
    (h : updateUser s id req now = (.ok 200 b, s')) :
    (getUser s' id).1 = .ok 200 b := by
  by_cases hid : id = ""
  · rw [updateUser, if_pos hid] at h
    exact absurd (congrArg Prod.fst h) (by simp)
  rw [updateUser, if_neg hid] at h
  cases hget : dbGetUserByID s.db id with
  | error e =>
    rw [hget] at h
    exact absurd (congrArg Prod.fst h) (by simp)
  | ok w =>
    rw [hget] at h
    dsimp only at h
    obtain ⟨hup, hfindw⟩ := dbGetUser_ok _ _ _ hget
    have hwid : w.id = id := by
      have := List.find?_some hfindw
      simpa using this
    cases hupd : dbUpdateUser s.db
        { w with
            email := updStr w.email req.email
            username := updStr w.username req.username
            first_name := updStr w.first_name req.firstName
            last_name := updStr w.last_name req.lastName
            updated_at := now } with
    | error e =>
      rw [hupd] at h
      exact absurd (congrArg Prod.fst h) (by simp)
    | ok p =>
      obtain ⟨u2, db2⟩ := p
      obtain ⟨-, hu2, hdb2⟩ := dbUpdateUser_ok _ _ _ _ hupd
      rw [hupd] at h
      dsimp only at h
      rw [Prod.mk.injEq] at h
      obtain ⟨hb, hs'⟩ := h
      simp only [HRes.ok.injEq] at hb
      subst hs'
      have hmiss :
          GetCache (redisDel (DeleteCache s.cache (userCacheKey id)) "users:list:*")
            (userCacheKey id) = none := by
        rw [redisDel,
          GetCache_DeleteCache_ne _ _ _ (userCacheKey_ne_listDel id),
          GetCache_DeleteCache_self]
      rw [getUser, if_neg hid]
      dsimp only
      rw [hmiss]
      dsimp only
      have hmem : w ∈ s.db.users := List.mem_of_find?_eq_some hfindw
      have hany : s.db.users.any (fun r => r.id == w.id) = true :=
        List.any_eq_true.mpr ⟨w, hmem, by simp⟩
      have hfind2 :
          (s.db.users.map (fun r =>
              if r.id == w.id then
                { w with
                email := updStr w.email req.email
                username := updStr w.username req.username
                first_name := updStr w.first_name req.firstName
                last_name := updStr w.last_name req.lastName
                updated_at := now }
              else r)).find? (fun r => r.id == w.id) =
            some { w with
                email := updStr w.email req.email
                username := updStr w.username req.username
                first_name := updStr w.first_name req.firstName
                last_name := updStr w.last_name req.lastName
                updated_at := now } := by
        apply find?_map_if _ _ (by simp) _ hany
      rw [dbGetUserByID, hdb2]
      dsimp only
      rw [if_pos hup, ← hwid]
      rw [hfind2]
      dsimp only
      rw [← hb.2, hu2]

/-- After a successful deleteUser, a getUser of the same id misses
the cache and the store and yields NotFound, whatever the prior cache
contents. -/
theorem deleteUser_then_get (s : SState) (id : String) (s' : SState)
    (h : deleteUser s id = (.ok 204 (), s')) :
    (getUser s' id).1 = .err 404 := by
  by_cases hid : id = ""
  · rw [deleteUser, if_pos hid] at h
    exact absurd (congrArg Prod.fst h) (by simp)
  rw [deleteUser, if_neg hid] at h
  cases hdel : dbDeleteUser s.db id with
  | error e =>
    rw [hdel] at h
    exact absurd (congrArg Prod.fst h) (by simp)
  | ok db' =>
    obtain ⟨hup, hdb'⟩ := dbDeleteUser_ok _ _ _ hdel
    rw [hdel] at h
    dsimp only at h
    rw [Prod.mk.injEq] at h
    obtain ⟨-, hs'⟩ := h
    subst hs'
    have hmiss :
        GetCache (redisDel (DeleteCache s.cache (userCacheKey id)) "users:list:*")
          (userCacheKey id) = none := by
      rw [redisDel,
        GetCache_DeleteCache_ne _ _ _ (userCacheKey_ne_listDel id),
        GetCache_DeleteCache_self]
    rw [getUser, if_neg hid]
    dsimp only
    rw [hmiss]
    dsimp only
    rw [dbGetUserByID, hdb']
    dsimp only
    rw [if_pos hup, find?_filter_neg]

theorem dbUpdateExercise_ok (db : Db) (w u' : Exercises) (db' : Db)
    (h : dbUpdateExercise db w = .ok (u', db')) :
    db.up = true ∧ u' = w ∧
    db' = { db with exercises := db.exercises.map (fun r => if r.id == w.id then w else r) } := by
  unfold dbUpdateExercise at h
  by_cases hup : db.up = true
  · rw [if_pos hup] at h
    by_cases hany : db.exercises.any (fun r => r.id == w.id) = true
    · rw [if_pos hany] at h
      simp only [Except.ok.injEq, Prod.mk.injEq] at h
      exact ⟨hup, h.1.symm, h.2.symm⟩
    · rw [if_neg hany] at h
      exact absurd h (by simp)
  · rw [if_neg hup] at h
    exact absurd h (by simp)

theorem dbDeleteExercise_ok (db : Db) (id : String) (db' : Db)
    (h : dbDeleteExercise db id = .ok db') :
    db.up = true ∧
    db' = { db with exercises := db.exercises.filter (fun r => !(r.id == id)) } := by
  unfold dbDeleteExercise at h
  by_cases hup : db.up = true
  · rw [if_pos hup] at h
    simp only [Except.ok.injEq] at h
    exact ⟨hup, h.symm⟩
  · rw [if_neg hup] at h
    exact absurd h (by simp)

/-- The literal Del argument of the handlers differs from every point key. -/
theorem exerciseCacheKey_ne_listDel (id : String) :
    exerciseCacheKey id ≠ "exercises:list:*" := by
  apply key_ne_of_res
  rw [kr_exercise]
  decide

/-- After a successful updateExercise, a getExercise of the same id reads
through to the store and returns exactly the updated entity. -/
theorem updateExercise_then_get (s : SState) (id : String) (req : UpdateExerciseRequest)
    (now : Nat)
    (b : ExerciseResponse) (s' : SState)
    (h : updateExercise s id req now = (.ok 200 b, s')) :
    (getExercise s' id).1 = .ok 200 b := by
  by_cases hid : id = ""
  · rw [updateExercise, if_pos hid] at h
    exact absurd (congrArg Prod.fst h) (by simp)
  rw [updateExercise, if_neg hid] at h
  cases hget : dbGetExerciseByID s.db id with
  | error e =>
    rw [hget] at h
    exact absurd (congrArg Prod.fst h) (by simp)
  | ok w =>
    rw [hget] at h
    dsimp only at h
    obtain ⟨hup, hfindw⟩ := dbGetExercise_ok _ _ _ hget
    have hwid : w.id = id := by
      have := List.find?_some hfindw
      simpa using this
    cases hupd : dbUpdateExercise s.db
        { w with
            name := updStr w.name req.name
            description := updIf w.description req.description
            muscle_group := updStr w.muscle_group req.muscleGroup
            equipment := updStrPtr w.equipment req.equipment
            difficulty_level := updStr w.difficulty_level req.difficultyLevel
            instructions := updIf w.instructions req.instructions
            updated_at := now } with
    | error e =>
      rw [hupd] at h
      exact absurd (congrArg Prod.fst h) (by simp)
    | ok p =>
      obtain ⟨u2, db2⟩ := p
      obtain ⟨-, hu2, hdb2⟩ := dbUpdateExercise_ok _ _ _ _ hupd
      rw [hupd] at h
      dsimp only at h
      rw [Prod.mk.injEq] at h
      obtain ⟨hb, hs'⟩ := h
      simp only [HRes.ok.injEq] at hb
      subst hs'
      have hmiss :
          GetCache (redisDel (DeleteCache s.cache (exerciseCacheKey id)) "exercises:list:*")
            (exerciseCacheKey id) = none := by
        rw [redisDel,
          GetCache_DeleteCache_ne _ _ _ (exerciseCacheKey_ne_listDel id),
          GetCache_DeleteCache_self]
      rw [getExercise, if_neg hid]
      dsimp only
      rw [hmiss]
      dsimp only
      have hmem : w ∈ s.db.exercises := List.mem_of_find?_eq_some hfindw
      have hany : s.db.exercises.any (fun r => r.id == w.id) = true :=
        List.any_eq_true.mpr ⟨w, hmem, by simp⟩
      have hfind2 :
          (s.db.exercises.map (fun r =>
              if r.id == w.id then
                { w with
                name := updStr w.name req.name
                description := updIf w.description req.description
                muscle_group := updStr w.muscle_group req.muscleGroup
                equipment := updStrPtr w.equipment req.equipment
                difficulty_level := updStr w.difficulty_level req.difficultyLevel
                instructions := updIf w.instructions req.instructions
                updated_at := now }
              else r)).find? (fun r => r.id == w.id) =
            some { w with
                name := updStr w.name req.name
                description := updIf w.description req.description
                muscle_group := updStr w.muscle_group req.muscleGroup
                equipment := updStrPtr w.equipment req.equipment
                difficulty_level := updStr w.difficulty_level req.difficultyLevel
                instructions := updIf w.instructions req.instructions
                updated_at := now } := by
        apply find?_map_if _ _ (by simp) _ hany
      rw [dbGetExerciseByID, hdb2]
      dsimp only
      rw [if_pos hup, ← hwid, hfind2]
      dsimp only
      rw [← hb.2, hu2]

/-- After a successful deleteExercise, a getExercise of the same id misses
the cache and the store and yields NotFound, whatever the prior cache
contents. -/
theorem deleteExercise_then_get (s : SState) (id : String) (s' : SState)
    (h : deleteExercise s id = (.ok 204 (), s')) :
    (getExercise s' id).1 = .err 404 := by
  by_cases hid : id = ""
  · rw [deleteExercise, if_pos hid] at h
    exact absurd (congrArg Prod.fst h) (by simp)
  rw [deleteExercise, if_neg hid] at h
  cases hdel : dbDeleteExercise s.db id with
  | error e =>
    rw [hdel] at h
    exact absurd (congrArg Prod.fst h) (by simp)
  | ok db' =>
    obtain ⟨hup, hdb'⟩ := dbDeleteExercise_ok _ _ _ hdel
    rw [hdel] at h
    dsimp only at h
    rw [Prod.mk.injEq] at h
    obtain ⟨-, hs'⟩ := h
    subst hs'
    have hmiss :
        GetCache (redisDel (DeleteCache s.cache (exerciseCacheKey id)) "exercises:list:*")
          (exerciseCacheKey id) = none := by
      rw [redisDel,
        GetCache_DeleteCache_ne _ _ _ (exerciseCacheKey_ne_listDel id),
        GetCache_DeleteCache_self]
    rw [getExercise, if_neg hid]
    dsimp only
    rw [hmiss]
    dsimp only
    rw [dbGetExerciseByID, hdb']
    dsimp only
    rw [if_pos hup, find?_filter_neg]

theorem dbUpdateWorkoutExercise_ok (db : Db) (w u' : Workout_exercises) (db' : Db)
    (h : dbUpdateWorkoutExercise db w = .ok (u', db')) :
    db.up = true ∧ u' = w ∧
    db' = { db with workout_exercises := db.workout_exercises.map (fun r => if r.id == w.id then w else r) } := by
  unfold dbUpdateWorkoutExercise at h
  by_cases hup : db.up = true
  · rw [if_pos hup] at h
    by_cases hany : db.workout_exercises.any (fun r => r.id == w.id) = true
    · rw [if_pos hany] at h
      simp only [Except.ok.injEq, Prod.mk.injEq] at h
      exact ⟨hup, h.1.symm, h.2.symm⟩
    · rw [if_neg hany] at h
      exact absurd h (by simp)
  · rw [if_neg hup] at h
    exact absurd h (by simp)

theorem dbDeleteWorkoutExercise_ok (db : Db) (id : String) (db' : Db)
    (h : dbDeleteWorkoutExercise db id = .ok db') :
    db.up = true ∧
    db' = { db with workout_exercises := db.workout_exercises.filter (fun r => !(r.id == id)) } := by
  unfold dbDeleteWorkoutExercise at h
  by_cases hup : db.up = true
  · rw [if_pos hup] at h
    simp only [Except.ok.injEq] at h
    exact ⟨hup, h.symm⟩
  · rw [if_neg hup] at h
    exact absurd h (by simp)

/-- The literal Del argument of the handlers differs from every point key. -/
theorem workoutExerciseCacheKey_ne_listDel (id : String) :
    workoutExerciseCacheKey id ≠ "workout_exercises:list:*" := by
  apply key_ne_of_res
  rw [kr_workout_exercise]
  decide

/-- After a successful updateWorkoutExercise, a getWorkoutExercise of the same id reads
through to the store and returns exactly the updated entity. -/
theorem updateWorkoutExercise_then_get (s : SState) (id : String) (req : UpdateWorkoutExerciseRequest)
    (b : WorkoutExerciseResponse) (s' : SState)
    (h : updateWorkoutExercise s id req = (.ok 200 b, s')) :
    (getWorkoutExercise s' id).1 = .ok 200 b := by
  by_cases hid : id = ""
  · rw [updateWorkoutExercise, if_pos hid] at h
    exact absurd (congrArg Prod.fst h) (by simp)
  rw [updateWorkoutExercise, if_neg hid] at h
  cases hget : dbGetWorkoutExerciseByID s.db id with
  | error e =>
    rw [hget] at h
    exact absurd (congrArg Prod.fst h) (by simp)
  | ok w =>
    rw [hget] at h
    dsimp only at h
    obtain ⟨hup, hfindw⟩ := dbGetWorkoutExercise_ok _ _ _ hget
    have hwid : w.id = id := by
      have := List.find?_some hfindw
      simpa using this
    cases hupd : dbUpdateWorkoutExercise s.db
        { w with
            workout_id := updIf w.workout_id req.workoutId
            exercise_id := updIf w.exercise_id req.exerciseId
            sets := updIf w.sets req.sets
            reps := updIf w.reps req.reps
            weight_kg := updIf w.weight_kg req.weightKg
            duration_seconds := updIf w.duration_seconds req.durationSeconds
            order_index := updIf w.order_index req.orderIndex
            rest_seconds := updIf w.rest_seconds req.restSeconds
            notes := updIf w.notes req.notes } with
    | error e =>
      rw [hupd] at h
      exact absurd (congrArg Prod.fst h) (by simp)
    | ok p =>
      obtain ⟨u2, db2⟩ := p
      obtain ⟨-, hu2, hdb2⟩ := dbUpdateWorkoutExercise_ok _ _ _ _ hupd
      rw [hupd] at h
      dsimp only at h
      rw [Prod.mk.injEq] at h
      obtain ⟨hb, hs'⟩ := h
      simp only [HRes.ok.injEq] at hb
      subst hs'
      have hmiss :
          GetCache (redisDel (DeleteCache s.cache (workoutExerciseCacheKey id)) "workout_exercises:list:*")
            (workoutExerciseCacheKey id) = none := by
        rw [redisDel,
          GetCache_DeleteCache_ne _ _ _ (workoutExerciseCacheKey_ne_listDel id),
          GetCache_DeleteCache_self]
      rw [getWorkoutExercise, if_neg hid]
      dsimp only
      rw [hmiss]
      dsimp only
      have hmem : w ∈ s.db.workout_exercises := List.mem_of_find?_eq_some hfindw
      have hany : s.db.workout_exercises.any (fun r => r.id == w.id) = true :=
        List.any_eq_true.mpr ⟨w, hmem, by simp⟩
      have hfind2 :
          (s.db.workout_exercises.map (fun r =>
              if r.id == w.id then
                { w with
                workout_id := updIf w.workout_id req.workoutId
                exercise_id := updIf w.exercise_id req.exerciseId
                sets := updIf w.sets req.sets
                reps := updIf w.reps req.reps
                weight_kg := updIf w.weight_kg req.weightKg
                duration_seconds := updIf w.duration_seconds req.durationSeconds
                order_index := updIf w.order_index req.orderIndex
                rest_seconds := updIf w.rest_seconds req.restSeconds
                notes := updIf w.notes req.notes }
              else r)).find? (fun r => r.id == w.id) =
            some { w with
                workout_id := updIf w.workout_id req.workoutId
                exercise_id := updIf w.exercise_id req.exerciseId
                sets := updIf w.sets req.sets
                reps := updIf w.reps req.reps
                weight_kg := updIf w.weight_kg req.weightKg
                duration_seconds := updIf w.duration_seconds req.durationSeconds
                order_index := updIf w.order_index req.orderIndex
                rest_seconds := updIf w.rest_seconds req.restSeconds
                notes := updIf w.notes req.notes } := by
        apply find?_map_if _ _ (by simp) _ hany
      rw [dbGetWorkoutExerciseByID, hdb2]
      dsimp only
      rw [if_pos hup, ← hwid, hfind2]
      dsimp only
      rw [← hb.2, hu2]

/-- After a successful deleteWorkoutExercise, a getWorkoutExercise of the same id misses
the cache and the store and yields NotFound, whatever the prior cache
contents. -/
theorem deleteWorkoutExercise_then_get (s : SState) (id : String) (s' : SState)
    (h : deleteWorkoutExercise s id = (.ok 204 (), s')) :
    (getWorkoutExercise s' id).1 = .err 404 := by
  by_cases hid : id = ""
  · rw [deleteWorkoutExercise, if_pos hid] at h
    exact absurd (congrArg Prod.fst h) (by simp)
  rw [deleteWorkoutExercise, if_neg hid] at h
  cases hdel : dbDeleteWorkoutExercise s.db id with
  | error e =>
    rw [hdel] at h
    exact absurd (congrArg Prod.fst h) (by simp)
  | ok db' =>
    obtain ⟨hup, hdb'⟩ := dbDeleteWorkoutExercise_ok _ _ _ hdel
    rw [hdel] at h
    dsimp only at h
    rw [Prod.mk.injEq] at h
    obtain ⟨-, hs'⟩ := h
    subst hs'
    have hmiss :
        GetCache (redisDel (DeleteCache s.cache (workoutExerciseCacheKey id)) "workout_exercises:list:*")
          (workoutExerciseCacheKey id) = none := by
      rw [redisDel,
        GetCache_DeleteCache_ne _ _ _ (workoutExerciseCacheKey_ne_listDel id),
        GetCache_DeleteCache_self]
    rw [getWorkoutExercise, if_neg hid]
    dsimp only
    rw [hmiss]
    dsimp only
    rw [dbGetWorkoutExerciseByID, hdb']
    dsimp only
    rw [if_pos hup, find?_filter_neg]

theorem dbUpdateWorkoutSession_ok (db : Db) (w u' : Workout_sessions) (db' : Db)
    (h : dbUpdateWorkoutSession db w = .ok (u', db')) :
    db.up = true ∧ u' = w ∧
    db' = { db with workout_sessions := db.workout_sessions.map (fun r => if r.id == w.id then w else r) } := by
  unfold dbUpdateWorkoutSession at h
  by_cases hup : db.up = true
  · rw [if_pos hup] at h
    by_cases hany : db.workout_sessions.any (fun r => r.id == w.id) = true
    · rw [if_pos hany] at h
      simp only [Except.ok.injEq, Prod.mk.injEq] at h
      exact ⟨hup, h.1.symm, h.2.symm⟩
    · rw [if_neg hany] at h
      exact absurd h (by simp)
  · rw [if_neg hup] at h
    exact absurd h (by simp)

theorem dbDeleteWorkoutSession_ok (db : Db) (id : String) (db' : Db)
    (h : dbDeleteWorkoutSession db id = .ok db') :
    db.up = true ∧
    db' = { db with workout_sessions := db.workout_sessions.filter (fun r => !(r.id == id)) } := by
  unfold dbDeleteWorkoutSession at h
  by_cases hup : db.up = true
  · rw [if_pos hup] at h
    simp only [Except.ok.injEq] at h
    exact ⟨hup, h.symm⟩
  · rw [if_neg hup] at h
    exact absurd h (by simp)

/-- The literal Del argument of the handlers differs from every point key. -/
theorem workoutSessionCacheKey_ne_listDel (id : String) :
    workoutSessionCacheKey id ≠ "workout_sessions:list:*" := by
  apply key_ne_of_res
  rw [kr_workout_session]
  decide

/-- After a successful updateWorkoutSession, a getWorkoutSession of the same id reads
through to the store and returns exactly the updated entity. -/
theorem updateWorkoutSession_then_get (s : SState) (id : String) (req : UpdateWorkoutSessionRequest)
    (now : Nat)
    (b : WorkoutSessionResponse) (s' : SState)
    (h : updateWorkoutSession s id req now = (.ok 200 b, s')) :
    (getWorkoutSession s' id).1 = .ok 200 b := by
  by_cases hid : id = ""
  · rw [updateWorkoutSession, if_pos hid] at h
    exact absurd (congrArg Prod.fst h) (by simp)
  rw [updateWorkoutSession, if_neg hid] at h
  cases hget : dbGetWorkoutSessionByID s.db id with
  | error e =>
    rw [hget] at h
    exact absurd (congrArg Prod.fst h) (by simp)
  | ok w =>
    rw [hget] at h
    dsimp only at h
    obtain ⟨hup, hfindw⟩ := dbGetWorkoutSession_ok _ _ _ hget
    have hwid : w.id = id := by
      have := List.find?_some hfindw
      simpa using this
    cases hupd : dbUpdateWorkoutSession s.db
        { w with
            workout_id := updPtr w.workout_id req.workoutId
            name := updIf w.name req.name
            started_at := updIf w.started_at req.startedAt
            completed_at := updPtr w.completed_at req.completedAt
            duration_minutes := updPtr w.duration_minutes req.durationMinutes
            notes := updPtr w.notes req.notes
            updated_at := now } with
    | error e =>
      rw [hupd] at h
      exact absurd (congrArg Prod.fst h) (by simp)
    | ok p =>
      obtain ⟨u2, db2⟩ := p
      obtain ⟨-, hu2, hdb2⟩ := dbUpdateWorkoutSession_ok _ _ _ _ hupd
      rw [hupd] at h
      dsimp only at h
      rw [Prod.mk.injEq] at h
      obtain ⟨hb, hs'⟩ := h
      simp only [HRes.ok.injEq] at hb
      subst hs'
      have hmiss :
          GetCache (redisDel (DeleteCache s.cache (workoutSessionCacheKey id)) "workout_sessions:list:*")
            (workoutSessionCacheKey id) = none := by
        rw [redisDel,
          GetCache_DeleteCache_ne _ _ _ (workoutSessionCacheKey_ne_listDel id),
          GetCache_DeleteCache_self]
      rw [getWorkoutSession, if_neg hid]
      dsimp only
      rw [hmiss]
      dsimp only
      have hmem : w ∈ s.db.workout_sessions := List.mem_of_find?_eq_some hfindw
      have hany : s.db.workout_sessions.any (fun r => r.id == w.id) = true :=
        List.any_eq_true.mpr ⟨w, hmem, by simp⟩
      have hfind2 :
          (s.db.workout_sessions.map (fun r =>
              if r.id == w.id then
                { w with
                workout_id := updPtr w.workout_id req.workoutId
                name := updIf w.name req.name
                started_at := updIf w.started_at req.startedAt
                completed_at := updPtr w.completed_at req.completedAt
                duration_minutes := updPtr w.duration_minutes req.durationMinutes
                notes := updPtr w.notes req.notes
                updated_at := now }
              else r)).find? (fun r => r.id == w.id) =
            some { w with
                workout_id := updPtr w.workout_id req.workoutId
                name := updIf w.name req.name
                started_at := updIf w.started_at req.startedAt
                completed_at := updPtr w.completed_at req.completedAt
                duration_minutes := updPtr w.duration_minutes req.durationMinutes
                notes := updPtr w.notes req.notes
                updated_at := now } := by
        apply find?_map_if _ _ (by simp) _ hany
      rw [dbGetWorkoutSessionByID, hdb2]
      dsimp only
      rw [if_pos hup, ← hwid, hfind2]
      dsimp only
      rw [← hb.2, hu2]

/-- After a successful deleteWorkoutSession, a getWorkoutSession of the same id misses
the cache and the store and yields NotFound, whatever the prior cache
contents. -/
theorem deleteWorkoutSession_then_get (s : SState) (id : String) (s' : SState)
    (h : deleteWorkoutSession s id = (.ok 204 (), s')) :
    (getWorkoutSession s' id).1 = .err 404 := by
  by_cases hid : id = ""
  · rw [deleteWorkoutSession, if_pos hid] at h
    exact absurd (congrArg Prod.fst h) (by simp)
  rw [deleteWorkoutSession, if_neg hid] at h
  cases hdel : dbDeleteWorkoutSession s.db id with
  | error e =>
    rw [hdel] at h
    exact absurd (congrArg Prod.fst h) (by simp)
  | ok db' =>
    obtain ⟨hup, hdb'⟩ := dbDeleteWorkoutSession_ok _ _ _ hdel
    rw [hdel] at h
    dsimp only at h
    rw [Prod.mk.injEq] at h
    obtain ⟨-, hs'⟩ := h
    subst hs'
    have hmiss :
        GetCache (redisDel (DeleteCache s.cache (workoutSessionCacheKey id)) "workout_sessions:list:*")
          (workoutSessionCacheKey id) = none := by
      rw [redisDel,
        GetCache_DeleteCache_ne _ _ _ (workoutSessionCacheKey_ne_listDel id),
        GetCache_DeleteCache_self]
    rw [getWorkoutSession, if_neg hid]
    dsimp only
    rw [hmiss]
    dsimp only
    rw [dbGetWorkoutSessionByID, hdb']
    dsimp only
    rw [if_pos hup, find?_filter_neg]

/-- C3. For every cached resource kind, after a successful update the
next point read of the same id returns exactly the updated entity (the
point key was deleted synchronously after the store commit, so the read
falls through to the record store and can never serve pre-mutation cached
bytes), and after a successful delete the next point read yields NotFound
— both regardless of the prior cache contents. -/
theorem C3_point_read_after_mutation :
    (∀ (s : SState) (id : String) (req : UpdateUserRequest) (now : Nat)
        (b : UserResponse) (s' : SState),
      updateUser s id req now = (.ok 200 b, s') → (getUser s' id).1 = .ok 200 b) ∧
    (∀ (s : SState) (id : String) (s' : SState),
      deleteUser s id = (.ok 204 (), s') → (getUser s' id).1 = .err 404) ∧
    (∀ (s : SState) (id : String) (req : UpdateWorkoutRequest) (now : Nat)
        (b : WorkoutResponse) (s' : SState),
      updateWorkout s id req now = (.ok 200 b, s') → (getWorkout s' id).1 = .ok 200 b) ∧
    (∀ (s : SState) (id : String) (s' : SState),
      deleteWorkout s id = (.ok 204 (), s') → (getWorkout s' id).1 = .err 404) ∧
    (∀ (s : SState) (id : String) (req : UpdateExerciseRequest) (now : Nat)
        (b : ExerciseResponse) (s' : SState),
      updateExercise s id req now = (.ok 200 b, s') → (getExercise s' id).1 = .ok 200 b) ∧
    (∀ (s : SState) (id : String) (s' : SState),
      deleteExercise s id = (.ok 204 (), s') → (getExercise s' id).1 = .err 404) ∧
    (∀ (s : SState) (id : String) (req : UpdateWorkoutExerciseRequest)
        (b : WorkoutExerciseResponse) (s' : SState),
      updateWorkoutExercise s id req = (.ok 200 b, s') →
        (getWorkoutExercise s' id).1 = .ok 200 b) ∧
    (∀ (s : SState) (id : String) (s' : SState),
      deleteWorkoutExercise s id = (.ok 204 (), s') →
        (getWorkoutExercise s' id).1 = .err 404) ∧
    (∀ (s : SState) (id : String) (req : UpdateWorkoutSessionRequest) (now : Nat)
        (b : WorkoutSessionResponse) (s' : SState),
      updateWorkoutSession s id req now = (.ok 200 b, s') →
        (getWorkoutSession s' id).1 = .ok 200 b) ∧
    (∀ (s : SState) (id : String) (s' : SState),
      deleteWorkoutSession s id = (.ok 204 (), s') →
        (getWorkoutSession s' id).1 = .err 404) :=
  ⟨updateUser_then_get, deleteUser_then_get, updateWorkout_then_get, deleteWorkout_then_get,
   updateExercise_then_get, deleteExercise_then_get, updateWorkoutExercise_then_get,
   deleteWorkoutExercise_then_get, updateWorkoutSession_then_get, deleteWorkoutSession_then_get⟩

def reqUserRename : UpdateUserRequest :=
  { email := none, username := some "alice2", firstName := none, lastName := none }

/-- C3 witness: renaming user u1 and then reading u1 yields the renamed
user; deleting workout w1 and then reading w1 yields 404 — with the
hypotheses discharged by computing the mutation on a concrete state. -/
theorem C3_point_read_after_mutation_witness :
    (getUser (updateUser sUserDemo "u1" reqUserRename 9).2 "u1").1 =
      .ok 200 (userToResponse
        { demoUserRow with username := .str "alice2", updated_at := 9 }) ∧
    (getWorkout (deleteWorkout sUserDemo "w1").2 "w1").1 = .err 404 :=
  ⟨C3_point_read_after_mutation.1 sUserDemo "u1" reqUserRename 9 _ _ (by rfl),
   C3_point_read_after_mutation.2.2.2.1 sUserDemo "w1" _ (by rfl)⟩

/-! C1: the invalidation step and the list-key family. -/

/-- One workout in a reachable store, with a reachable empty cache. -/
def sListDemo : SState :=
  { db := { up := true, users := [], workouts := [demoWorkoutRow], exercises := [],
            workout_exercises := [], workout_sessions := [], programs := [] }
    cache := { up := true, entries := [] } }

def demoCreateWorkoutReq : CreateWorkoutRequest :=
  { name := "Push Day", description := "", durationMinutes := 30, programId := "" }

/-- The workout row the scenario's create stores. -/
def demoCreatedWorkout : Workouts :=
  { id := "w2", user_id := "u1", name := "Push Day", description := "",
    duration_minutes := 30, program_id := none, created_at := 0, updated_at := 0 }

/-- C1: the spec's own scenario, executed. Listing workouts at
(limit 10, offset 0) populates the list key; creating a new workout
succeeds and runs the invalidation step — but that step is a Redis DEL of
the literal key named "workouts:list:*", which removes nothing, so the
stale entry at "workouts:list:10:0" survives and the repeated list read
serves the cached list that omits the new workout, even though a fresh
record-store read would include it. -/
theorem C1_wildcard_del_leaves_stale_list :
    (createWorkout (listWorkouts sListDemo 10 0).2 demoCreateWorkoutReq "u1" "w2").1 =
      .ok 201 (workoutToResponse demoCreatedWorkout) ∧
    ((createWorkout (listWorkouts sListDemo 10 0).2 demoCreateWorkoutReq "u1" "w2").2).db.workouts
      = [demoWorkoutRow, demoCreatedWorkout] ∧
    GetCache
      ((createWorkout (listWorkouts sListDemo 10 0).2 demoCreateWorkoutReq "u1" "w2").2).cache
      (workoutsListCacheKey 10 0) = some (.workoutList [demoWorkoutRow]) ∧
    (listWorkouts
      (createWorkout (listWorkouts sListDemo 10 0).2 demoCreateWorkoutReq "u1" "w2").2
      10 0).1 = .ok 200 [workoutToResponse demoWorkoutRow] ∧
    dbListWorkouts
      ((createWorkout (listWorkouts sListDemo 10 0).2 demoCreateWorkoutReq "u1" "w2").2).db
      10 0 = .ok [demoWorkoutRow, demoCreatedWorkout] := by
  refine ⟨?_, ?_, ?_, ?_, ?_⟩ <;> first | decide | rfl

/-! C4: credential redaction. -/

/-- A cache payload carries no credential material: every user payload in
it has an empty password hash. Non-user payloads carry no credential. -/
def valRedacted : CacheVal → Bool
  | .user u => u.password_hash == GoDyn.str ""
  | .userList l => l.all (fun u => u.password_hash == GoDyn.str "")
  | _ => true

/-- Every entry of the cache is redacted. -/
def RedactedCache (c : CacheState) : Prop :=
  ∀ e ∈ c.entries, valRedacted e.2 = true

theorem redacted_SetCache {c : CacheState} {k : String} {v : CacheVal}
    (hc : RedactedCache c) (hv : valRedacted v = true) :
    RedactedCache (SetCache c k v) := by
  unfold SetCache
  split
  · intro e he
    dsimp only at he
    rcases List.mem_cons.1 he with rfl | hmem
    · exact hv
    · exact hc e (List.mem_of_mem_filter hmem)
  · exact hc

theorem redacted_DeleteCache {c : CacheState} {k : String} (hc : RedactedCache c) :
    RedactedCache (DeleteCache c k) := by
  unfold DeleteCache
  split
  · intro e he
    dsimp only at he
    exact hc e (List.mem_of_mem_filter he)
  · exact hc

theorem redacted_redisDel {c : CacheState} {k : String} (hc : RedactedCache c) :
    RedactedCache (redisDel c k) :=
  redacted_DeleteCache hc

/-- C4. Both cache-writing user reads blank the password hash before
caching while leaving the record store untouched, and every operation of
the API preserves the invariant that no cached user payload carries a
non-empty password hash: in every reachable cache state the credential is
absent from the cache while the store keeps it. -/
theorem C4_credential_redaction :
    (∀ (s : SState) (op : Op), RedactedCache s.cache → RedactedCache (runOp s op).cache) ∧
    (∀ (s : SState) (id : String), ((getUser s id).2).db = s.db) ∧
    (∀ (s : SState) (limit offset : Int), ((listUsers s limit offset).2).db = s.db) := by
  refine ⟨?_, ?_, ?_⟩
  · intro s op hc
    cases op <;>
      (unfold runOp
       unfold createUser getUser listUsers updateUser deleteUser createWorkout getWorkout
         listWorkouts updateWorkout deleteWorkout createExercise getExercise listExercises
         updateExercise deleteExercise createWorkoutExercise getWorkoutExercise
         listWorkoutExercises updateWorkoutExercise deleteWorkoutExercise
         createWorkoutSession getWorkoutSession listWorkoutSessions updateWorkoutSession
         deleteWorkoutSession createProgram getProgram listPrograms updateProgram
         deleteProgram
       dsimp only
       repeat' split) <;>
      first
        | exact hc
        | exact redacted_redisDel hc
        | exact redacted_redisDel (redacted_DeleteCache hc)
        | exact redacted_SetCache hc (by simp [valRedacted])
  · intro s id
    unfold getUser
    repeat' split
    all_goals rfl
  · intro s limit offset
    unfold listUsers
    repeat' split
    all_goals rfl

/-- C4 witness: the redaction invariant holds after a point read of user
u1 on a state whose cache starts empty (and whose store keeps the hash). -/
theorem C4_credential_redaction_witness :
    RedactedCache (runOp sUserDemo (Op.opGetUser "u1")).cache :=
  C4_credential_redaction.1 sUserDemo (Op.opGetUser "u1")
    (by unfold RedactedCache; decide)

/-- With the cache backend down, getUser behaves exactly like the
same read over a reachable empty cache: it degrades to the record store. -/
theorem getUser_cache_down (db : Db) (c : CacheState) (id : String) (h : c.up = false) :
    (getUser ⟨db, c⟩ id).1 = (getUser ⟨db, ⟨true, []⟩⟩ id).1 := by
  unfold getUser
  by_cases hid : id = ""
  · rw [if_pos hid, if_pos hid]
  · rw [if_neg hid, if_neg hid]
    dsimp only
    have h1 : GetCache c (userCacheKey id) = none := by simp [GetCache, h]
    have h2 : GetCache (⟨true, []⟩ : CacheState) (userCacheKey id) = none := rfl
    rw [h1, h2]
    dsimp only
    split <;> rfl

/-- With the cache backend down, listUsers degrades to the record
store and returns what the reachable-empty-cache read returns. -/
theorem listUsers_cache_down (db : Db) (c : CacheState) (l o : Int) (h : c.up = false) :
    (listUsers ⟨db, c⟩ l o).1 = (listUsers ⟨db, ⟨true, []⟩⟩ l o).1 := by
  unfold listUsers
  dsimp only
  have h1 : GetCache c (usersListCacheKey l o) = none := by simp [GetCache, h]
  have h2 : GetCache (⟨true, []⟩ : CacheState) (usersListCacheKey l o) = none := rfl
  rw [h1, h2]
  dsimp only
  split <;> rfl

/-- The response of createUser does not depend on the cache at all: a
failed invalidation cannot change what the caller is told. -/
theorem createUser_cache_indep (db : Db) (c c' : CacheState) (req : CreateUserRequest) (now : Nat) (newId hash : String) :
    (createUser ⟨db, c⟩ req now newId hash).1 = (createUser ⟨db, c'⟩ req now newId hash).1 := by
  unfold createUser
  dsimp only
  split <;> rfl

/-- The response of updateUser does not depend on the cache. -/
theorem updateUser_cache_indep (db : Db) (c c' : CacheState) (id : String) (req : UpdateUserRequest) (now : Nat) :
    (updateUser ⟨db, c⟩ id req now).1 = (updateUser ⟨db, c'⟩ id req now).1 := by
  unfold updateUser
  by_cases hid : id = ""
  · rw [if_pos hid, if_pos hid]
  · rw [if_neg hid, if_neg hid]
    dsimp only
    split
    · rfl
    · split <;> rfl

/-- The response of deleteUser does not depend on the cache. -/
theorem deleteUser_cache_indep (db : Db) (c c' : CacheState) (id : String) :
    (deleteUser ⟨db, c⟩ id).1 = (deleteUser ⟨db, c'⟩ id).1 := by
  unfold deleteUser
  by_cases hid : id = ""
  · rw [if_pos hid, if_pos hid]
  · rw [if_neg hid, if_neg hid]
    dsimp only
    split <;> rfl

/-- With the cache backend down, getWorkout behaves exactly like the
same read over a reachable empty cache: it degrades to the record store. -/
theorem getWorkout_cache_down (db : Db) (c : CacheState) (id : String) (h : c.up = false) :
    (getWorkout ⟨db, c⟩ id).1 = (getWorkout ⟨db, ⟨true, []⟩⟩ id).1 := by
  unfold getWorkout
  by_cases hid : id = ""
  · rw [if_pos hid, if_pos hid]
  · rw [if_neg hid, if_neg hid]
    dsimp only
    have h1 : GetCache c (workoutCacheKey id) = none := by simp [GetCache, h]
    have h2 : GetCache (⟨true, []⟩ : CacheState) (workoutCacheKey id) = none := rfl
    rw [h1, h2]
    dsimp only
    split <;> rfl

/-- With the cache backend down, listWorkouts degrades to the record
store and returns what the reachable-empty-cache read returns. -/
theorem listWorkouts_cache_down (db : Db) (c : CacheState) (l o : Int) (h : c.up = false) :
    (listWorkouts ⟨db, c⟩ l o).1 = (listWorkouts ⟨db, ⟨true, []⟩⟩ l o).1 := by
  unfold listWorkouts
  dsimp only
  have h1 : GetCache c (workoutsListCacheKey l o) = none := by simp [GetCache, h]
  have h2 : GetCache (⟨true, []⟩ : CacheState) (workoutsListCacheKey l o) = none := rfl
  rw [h1, h2]
  dsimp only
  split <;> rfl

/-- The response of createWorkout does not depend on the cache at all: a
failed invalidation cannot change what the caller is told. -/
theorem createWorkout_cache_indep (db : Db) (c c' : CacheState) (req : CreateWorkoutRequest) (userID newId : String) :
    (createWorkout ⟨db, c⟩ req userID newId).1 = (createWorkout ⟨db, c'⟩ req userID newId).1 := by
  unfold createWorkout
  dsimp only
  split <;> rfl

/-- The response of updateWorkout does not depend on the cache. -/
theorem updateWorkout_cache_indep (db : Db) (c c' : CacheState) (id : String) (req : UpdateWorkoutRequest) (now : Nat) :
    (updateWorkout ⟨db, c⟩ id req now).1 = (updateWorkout ⟨db, c'⟩ id req now).1 := by
  unfold updateWorkout
  by_cases hid : id = ""
  · rw [if_pos hid, if_pos hid]
  · rw [if_neg hid, if_neg hid]
    dsimp only
    split
    · rfl
    · split <;> rfl

/-- The response of deleteWorkout does not depend on the cache. -/
theorem deleteWorkout_cache_indep (db : Db) (c c' : CacheState) (id : String) :
    (deleteWorkout ⟨db, c⟩ id).1 = (deleteWorkout ⟨db, c'⟩ id).1 := by
  unfold deleteWorkout
  by_cases hid : id = ""
  · rw [if_pos hid, if_pos hid]
  · rw [if_neg hid, if_neg hid]
    dsimp only
    split <;> rfl

/-- With the cache backend down, getExercise behaves exactly like the
same read over a reachable empty cache: it degrades to the record store. -/
theorem getExercise_cache_down (db : Db) (c : CacheState) (id : String) (h : c.up = false) :
    (getExercise ⟨db, c⟩ id).1 = (getExercise ⟨db, ⟨true, []⟩⟩ id).1 := by
  unfold getExercise
  by_cases hid : id = ""
  · rw [if_pos hid, if_pos hid]
  · rw [if_neg hid, if_neg hid]
    dsimp only
    have h1 : GetCache c (exerciseCacheKey id) = none := by simp [GetCache, h]
    have h2 : GetCache (⟨true, []⟩ : CacheState) (exerciseCacheKey id) = none := rfl
    rw [h1, h2]
    dsimp only
    split <;> rfl

/-- With the cache backend down, listExercises degrades to the record
store and returns what the reachable-empty-cache read returns. -/
theorem listExercises_cache_down (db : Db) (c : CacheState) (l o : Int) (h : c.up = false) :
    (listExercises ⟨db, c⟩ l o).1 = (listExercises ⟨db, ⟨true, []⟩⟩ l o).1 := by
  unfold listExercises
  dsimp only
  have h1 : GetCache c (exercisesListCacheKey l o) = none := by simp [GetCache, h]
  have h2 : GetCache (⟨true, []⟩ : CacheState) (exercisesListCacheKey l o) = none := rfl
  rw [h1, h2]
  dsimp only
  split <;> rfl

/-- The response of createExercise does not depend on the cache at all: a
failed invalidation cannot change what the caller is told. -/
theorem createExercise_cache_indep (db : Db) (c c' : CacheState) (req : CreateExerciseRequest) (now : Nat) (newId : String) :
    (createExercise ⟨db, c⟩ req now newId).1 = (createExercise ⟨db, c'⟩ req now newId).1 := by
  unfold createExercise
  dsimp only
  split <;> rfl

/-- The response of updateExercise does not depend on the cache. -/
theorem updateExercise_cache_indep (db : Db) (c c' : CacheState) (id : String) (req : UpdateExerciseRequest) (now : Nat) :
    (updateExercise ⟨db, c⟩ id req now).1 = (updateExercise ⟨db, c'⟩ id req now).1 := by
  unfold updateExercise
  by_cases hid : id = ""
  · rw [if_pos hid, if_pos hid]
  · rw [if_neg hid, if_neg hid]
    dsimp only
    split
    · rfl
    · split <;> rfl

/-- The response of deleteExercise does not depend on the cache. -/
theorem deleteExercise_cache_indep (db : Db) (c c' : CacheState) (id : String) :
    (deleteExercise ⟨db, c⟩ id).1 = (deleteExercise ⟨db, c'⟩ id).1 := by
  unfold deleteExercise
  by_cases hid : id = ""
  · rw [if_pos hid, if_pos hid]
  · rw [if_neg hid, if_neg hid]
    dsimp only
    split <;> rfl

/-- With the cache backend down, getWorkoutExercise behaves exactly like the
same read over a reachable empty cache: it degrades to the record store. -/
theorem getWorkoutExercise_cache_down (db : Db) (c : CacheState) (id : String) (h : c.up = false) :
    (getWorkoutExercise ⟨db, c⟩ id).1 = (getWorkoutExercise ⟨db, ⟨true, []⟩⟩ id).1 := by
  unfold getWorkoutExercise
  by_cases hid : id = ""
  · rw [if_pos hid, if_pos hid]
  · rw [if_neg hid, if_neg hid]
    dsimp only
    have h1 : GetCache c (workoutExerciseCacheKey id) = none := by simp [GetCache, h]
    have h2 : GetCache (⟨true, []⟩ : CacheState) (workoutExerciseCacheKey id) = none := rfl
    rw [h1, h2]
    dsimp only
    split <;> rfl

/-- With the cache backend down, listWorkoutExercises degrades to the record
store and returns what the reachable-empty-cache read returns. -/
theorem listWorkoutExercises_cache_down (db : Db) (c : CacheState) (l o : Int) (h : c.up = false) :
    (listWorkoutExercises ⟨db, c⟩ l o).1 = (listWorkoutExercises ⟨db, ⟨true, []⟩⟩ l o).1 := by
  unfold listWorkoutExercises
  dsimp only
  have h1 : GetCache c (workoutExercisesListCacheKey l o) = none := by simp [GetCache, h]
  have h2 : GetCache (⟨true, []⟩ : CacheState) (workoutExercisesListCacheKey l o) = none := rfl
  rw [h1, h2]
  dsimp only
  split <;> rfl

/-- The response of createWorkoutExercise does not depend on the cache at all: a
failed invalidation cannot change what the caller is told. -/
theorem createWorkoutExercise_cache_indep (db : Db) (c c' : CacheState) (req : CreateWorkoutExerciseRequest) (now : Nat) (newId : String) :
    (createWorkoutExercise ⟨db, c⟩ req now newId).1 = (createWorkoutExercise ⟨db, c'⟩ req now newId).1 := by
  unfold createWorkoutExercise
  dsimp only
  split <;> rfl

/-- The response of updateWorkoutExercise does not depend on the cache. -/
theorem updateWorkoutExercise_cache_indep (db : Db) (c c' : CacheState) (id : String) (req : UpdateWorkoutExerciseRequest) :
    (updateWorkoutExercise ⟨db, c⟩ id req).1 = (updateWorkoutExercise ⟨db, c'⟩ id req).1 := by
  unfold updateWorkoutExercise
  by_cases hid : id = ""
  · rw [if_pos hid, if_pos hid]
  · rw [if_neg hid, if_neg hid]
    dsimp only
    split
    · rfl
    · split <;> rfl

/-- The response of deleteWorkoutExercise does not depend on the cache. -/
theorem deleteWorkoutExercise_cache_indep (db : Db) (c c' : CacheState) (id : String) :
    (deleteWorkoutExercise ⟨db, c⟩ id).1 = (deleteWorkoutExercise ⟨db, c'⟩ id).1 := by
  unfold deleteWorkoutExercise
  by_cases hid : id = ""
  · rw [if_pos hid, if_pos hid]
  · rw [if_neg hid, if_neg hid]
    dsimp only
    split <;> rfl

/-- With the cache backend down, getWorkoutSession behaves exactly like the
same read over a reachable empty cache: it degrades to the record store. -/
theorem getWorkoutSession_cache_down (db : Db) (c : CacheState) (id : String) (h : c.up = false) :
    (getWorkoutSession ⟨db, c⟩ id).1 = (getWorkoutSession ⟨db, ⟨true, []⟩⟩ id).1 := by
  unfold getWorkoutSession
  by_cases hid : id = ""
  · rw [if_pos hid, if_pos hid]
  · rw [if_neg hid, if_neg hid]
    dsimp only
    have h1 : GetCache c (workoutSessionCacheKey id) = none := by simp [GetCache, h]
    have h2 : GetCache (⟨true, []⟩ : CacheState) (workoutSessionCacheKey id) = none := rfl
    rw [h1, h2]
    dsimp only
    split <;> rfl

/-- With the cache backend down, listWorkoutSessions degrades to the record
store and returns what the reachable-empty-cache read returns. -/
theorem listWorkoutSessions_cache_down (db : Db) (c : CacheState) (l o : Int) (h : c.up = false) :
    (listWorkoutSessions ⟨db, c⟩ l o).1 = (listWorkoutSessions ⟨db, ⟨true, []⟩⟩ l o).1 := by
  unfold listWorkoutSessions
  dsimp only
  have h1 : GetCache c (workoutSessionsListCacheKey l o) = none := by simp [GetCache, h]
  have h2 : GetCache (⟨true, []⟩ : CacheState) (workoutSessionsListCacheKey l o) = none := rfl
  rw [h1, h2]
  dsimp only
  split <;> rfl

/-- The response of createWorkoutSession does not depend on the cache at all: a
failed invalidation cannot change what the caller is told. -/
theorem createWorkoutSession_cache_indep (db : Db) (c c' : CacheState) (req : CreateWorkoutSessionRequest) (userID : String) (now : Nat) (newId : String) :
    (createWorkoutSession ⟨db, c⟩ req userID now newId).1 = (createWorkoutSession ⟨db, c'⟩ req userID now newId).1 := by
  unfold createWorkoutSession
  dsimp only
  split <;> rfl

/-- The response of updateWorkoutSession does not depend on the cache. -/
theorem updateWorkoutSession_cache_indep (db : Db) (c c' : CacheState) (id : String) (req : UpdateWorkoutSessionRequest) (now : Nat) :
    (updateWorkoutSession ⟨db, c⟩ id req now).1 = (updateWorkoutSession ⟨db, c'⟩ id req now).1 := by
  unfold updateWorkoutSession
  by_cases hid : id = ""
  · rw [if_pos hid, if_pos hid]
  · rw [if_neg hid, if_neg hid]
    dsimp only
    split
    · rfl
    · split <;> rfl

/-- The response of deleteWorkoutSession does not depend on the cache. -/
theorem deleteWorkoutSession_cache_indep (db : Db) (c c' : CacheState) (id : String) :
    (deleteWorkoutSession ⟨db, c⟩ id).1 = (deleteWorkoutSession ⟨db, c'⟩ id).1 := by
  unfold deleteWorkoutSession
  by_cases hid : id = ""
  · rw [if_pos hid, if_pos hid]
  · rw [if_neg hid, if_neg hid]
    dsimp only
    split <;> rfl

/-- A point read served from a populated cache returns the same value the
degraded (cache-down) read computes from the record store: for users the
cached copy has a blanked hash, and the response DTO carries no hash, so
hit and fall-through coincide. -/
theorem getUser_populated_eq_down (db : Db) (entries : List (String × CacheVal))
    (id : String) (u : Users) (hid : id ≠ "") (hfind : dbGetUserByID db id = .ok u) :
    (getUser ⟨db, ⟨true, [(userCacheKey id, .user { u with password_hash := .str "" })]⟩⟩ id).1 =
    (getUser ⟨db, ⟨false, entries⟩⟩ id).1 := by
  unfold getUser
  rw [if_neg hid, if_neg hid]
  dsimp only
  have h1 : GetCache ⟨true, [(userCacheKey id, CacheVal.user { u with password_hash := .str "" })]⟩
      (userCacheKey id) = some (.user { u with password_hash := .str "" }) := by
    simp [GetCache, List.find?_cons]
  have h2 : GetCache (⟨false, entries⟩ : CacheState) (userCacheKey id) = none := rfl
  rw [h1, h2]
  dsimp only
  rw [hfind]
  rfl

/-- Same coherence for workouts, whose cached copy is the row itself. -/
theorem getWorkout_populated_eq_down (db : Db) (entries : List (String × CacheVal))
    (id : String) (w : Workouts) (hid : id ≠ "") (hfind : dbGetWorkoutByID db id = .ok w) :
    (getWorkout ⟨db, ⟨true, [(workoutCacheKey id, .workout w)]⟩⟩ id).1 =
    (getWorkout ⟨db, ⟨false, entries⟩⟩ id).1 := by
  unfold getWorkout
  rw [if_neg hid, if_neg hid]
  dsimp only
  have h1 : GetCache ⟨true, [(workoutCacheKey id, CacheVal.workout w)]⟩
      (workoutCacheKey id) = some (.workout w) := by
    simp [GetCache, List.find?_cons]
  have h2 : GetCache (⟨false, entries⟩ : CacheState) (workoutCacheKey id) = none := rfl
  rw [h1, h2]
  dsimp only
  rw [hfind]

/-- C6. Cache failures never surface: with the cache backend down, every
point and list read of every cached kind degrades to direct record-store
access and returns exactly what it would with a reachable empty cache
(the after-read SetCache failure is likewise swallowed); a populated
cache hit returns the same value as the degraded read (users shown with
the blanked-hash cached copy, workouts with the row itself); and the
response of every create, update and delete is independent of the cache
state, so a failed invalidation still reports the mutation as successful. -/
theorem C6_cache_failures_recovered :
    (∀ (db : Db) (c : CacheState) (id : String), c.up = false →
      (getUser ⟨db, c⟩ id).1 = (getUser ⟨db, ⟨true, []⟩⟩ id).1 ∧
      (getWorkout ⟨db, c⟩ id).1 = (getWorkout ⟨db, ⟨true, []⟩⟩ id).1 ∧
      (getExercise ⟨db, c⟩ id).1 = (getExercise ⟨db, ⟨true, []⟩⟩ id).1 ∧
      (getWorkoutExercise ⟨db, c⟩ id).1 = (getWorkoutExercise ⟨db, ⟨true, []⟩⟩ id).1 ∧
      (getWorkoutSession ⟨db, c⟩ id).1 = (getWorkoutSession ⟨db, ⟨true, []⟩⟩ id).1) ∧
    (∀ (db : Db) (c : CacheState) (l o : Int), c.up = false →
      (listUsers ⟨db, c⟩ l o).1 = (listUsers ⟨db, ⟨true, []⟩⟩ l o).1 ∧
      (listWorkouts ⟨db, c⟩ l o).1 = (listWorkouts ⟨db, ⟨true, []⟩⟩ l o).1 ∧
      (listExercises ⟨db, c⟩ l o).1 = (listExercises ⟨db, ⟨true, []⟩⟩ l o).1 ∧
      (listWorkoutExercises ⟨db, c⟩ l o).1 = (listWorkoutExercises ⟨db, ⟨true, []⟩⟩ l o).1 ∧
      (listWorkoutSessions ⟨db, c⟩ l o).1 = (listWorkoutSessions ⟨db, ⟨true, []⟩⟩ l o).1) ∧
    (∀ (db : Db) (entries : List (String × CacheVal)) (id : String) (u : Users),
      id ≠ "" → dbGetUserByID db id = .ok u →
      (getUser ⟨db, ⟨true, [(userCacheKey id, .user { u with password_hash := .str "" })]⟩⟩
          id).1 =
        (getUser ⟨db, ⟨false, entries⟩⟩ id).1) ∧
    (∀ (db : Db) (entries : List (String × CacheVal)) (id : String) (w : Workouts),
      id ≠ "" → dbGetWorkoutByID db id = .ok w →
      (getWorkout ⟨db, ⟨true, [(workoutCacheKey id, .workout w)]⟩⟩ id).1 =
        (getWorkout ⟨db, ⟨false, entries⟩⟩ id).1) ∧
    (∀ (db : Db) (c c' : CacheState) (req : CreateUserRequest) (now : Nat)
        (newId hash : String),
      (createUser ⟨db, c⟩ req now newId hash).1 = (createUser ⟨db, c'⟩ req now newId hash).1) ∧
    (∀ (db : Db) (c c' : CacheState) (req : CreateWorkoutRequest) (userID newId : String),
      (createWorkout ⟨db, c⟩ req userID newId).1 = (createWorkout ⟨db, c'⟩ req userID newId).1) ∧
    (∀ (db : Db) (c c' : CacheState) (req : CreateExerciseRequest) (now : Nat) (newId : String),
      (createExercise ⟨db, c⟩ req now newId).1 = (createExercise ⟨db, c'⟩ req now newId).1) ∧
    (∀ (db : Db) (c c' : CacheState) (req : CreateWorkoutExerciseRequest) (now : Nat)
        (newId : String),
      (createWorkoutExercise ⟨db, c⟩ req now newId).1 =
        (createWorkoutExercise ⟨db, c'⟩ req now newId).1) ∧
    (∀ (db : Db) (c c' : CacheState) (req : CreateWorkoutSessionRequest) (userID : String)
        (now : Nat) (newId : String),
      (createWorkoutSession ⟨db, c⟩ req userID now newId).1 =
        (createWorkoutSession ⟨db, c'⟩ req userID now newId).1) ∧
    (∀ (db : Db) (c c' : CacheState) (id : String) (req : UpdateUserRequest) (now : Nat),
      (updateUser ⟨db, c⟩ id req now).1 = (updateUser ⟨db, c'⟩ id req now).1) ∧
    (∀ (db : Db) (c c' : CacheState) (id : String) (req : UpdateWorkoutRequest) (now : Nat),
      (updateWorkout ⟨db, c⟩ id req now).1 = (updateWorkout ⟨db, c'⟩ id req now).1) ∧
    (∀ (db : Db) (c c' : CacheState) (id : String) (req : UpdateExerciseRequest) (now : Nat),
      (updateExercise ⟨db, c⟩ id req now).1 = (updateExercise ⟨db, c'⟩ id req now).1) ∧
    (∀ (db : Db) (c c' : CacheState) (id : String) (req : UpdateWorkoutExerciseRequest),
      (updateWorkoutExercise ⟨db, c⟩ id req).1 = (updateWorkoutExercise ⟨db, c'⟩ id req).1) ∧
    (∀ (db : Db) (c c' : CacheState) (id : String) (req : UpdateWorkoutSessionRequest)
        (now : Nat),
      (updateWorkoutSession ⟨db, c⟩ id req now).1 =
        (updateWorkoutSession ⟨db, c'⟩ id req now).1) ∧
    (∀ (db : Db) (c c' : CacheState) (id : String),
      (deleteUser ⟨db, c⟩ id).1 = (deleteUser ⟨db, c'⟩ id).1 ∧
      (deleteWorkout ⟨db, c⟩ id).1 = (deleteWorkout ⟨db, c'⟩ id).1 ∧
      (deleteExercise ⟨db, c⟩ id).1 = (deleteExercise ⟨db, c'⟩ id).1 ∧
      (deleteWorkoutExercise ⟨db, c⟩ id).1 = (deleteWorkoutExercise ⟨db, c'⟩ id).1 ∧
      (deleteWorkoutSession ⟨db, c⟩ id).1 = (deleteWorkoutSession ⟨db, c'⟩ id).1) := by
  refine ⟨?_, ?_, ?_, ?_, ?_, ?_, ?_, ?_, ?_, ?_, ?_, ?_, ?_, ?_, ?_⟩
  · intro db c id h
    exact ⟨getUser_cache_down db c id h, getWorkout_cache_down db c id h,
      getExercise_cache_down db c id h, getWorkoutExercise_cache_down db c id h,
      getWorkoutSession_cache_down db c id h⟩
  · intro db c l o h
    exact ⟨listUsers_cache_down db c l o h, listWorkouts_cache_down db c l o h,
      listExercises_cache_down db c l o h, listWorkoutExercises_cache_down db c l o h,
      listWorkoutSessions_cache_down db c l o h⟩
  · exact getUser_populated_eq_down
  · exact getWorkout_populated_eq_down
  · exact createUser_cache_indep
  · exact createWorkout_cache_indep
  · exact createExercise_cache_indep
  · exact createWorkoutExercise_cache_indep
  · exact createWorkoutSession_cache_indep
  · exact updateUser_cache_indep
  · exact updateWorkout_cache_indep
  · exact updateExercise_cache_indep
  · exact updateWorkoutExercise_cache_indep
  · exact updateWorkoutSession_cache_indep
  · intro db c c' id
    exact ⟨deleteUser_cache_indep db c c' id, deleteWorkout_cache_indep db c c' id,
      deleteExercise_cache_indep db c c' id, deleteWorkoutExercise_cache_indep db c c' id,
      deleteWorkoutSession_cache_indep db c c' id⟩

/-- C6 witness: on a concrete store, the cache-down read of user u1
equals the fresh-cache read, and the populated-cache read of u1 equals
the degraded read. -/
theorem C6_cache_failures_recovered_witness :
    (getUser ⟨sUserDemo.db, ⟨false, []⟩⟩ "u1").1 =
      (getUser ⟨sUserDemo.db, ⟨true, []⟩⟩ "u1").1 ∧
    (getUser ⟨sUserDemo.db,
        ⟨true, [(userCacheKey "u1", .user { demoUserRow with password_hash := .str "" })]⟩⟩
        "u1").1 =
      (getUser ⟨sUserDemo.db, ⟨false, []⟩⟩ "u1").1 :=
  ⟨(C6_cache_failures_recovered.1 sUserDemo.db ⟨false, []⟩ "u1" rfl).1,
   C6_cache_failures_recovered.2.2.1 sUserDemo.db [] "u1" demoUserRow (by decide) (by rfl)⟩

end FitnessHack
